import Mathlib

/-!
# Verification of the DOD-Agent-System per-frame pipeline

Shallow embedding of the repository's core simulation:

* `Components.h`   — `GameState` (structure-of-arrays attribute store),
  `ActionType`, `SpatialGrid::Insert` (`insertGrid`), `INVALID_ENTITY`.
* `Systems.h`      — `PerceptionSystem::Update` (`perceptionUpdate`, grid
  rebuild + 3×3 neighborhood query + range/FOV filter),
  `UtilitySystem::Update` (`utilityUpdate`, utility scoring and action
  selection), `KineticSystem::Update` (`kineticUpdate`),
  `NeedsSystem::Update` (`needsUpdate`).
* `main.cpp`       — `InitializeEntities` (`initState`), the per-frame
  pipeline (`frameUpdate`, `runFrames`).
* `Diagnostics.h`  — `SystemValidator::ValidateState` (`ValidateState`) and
  the driver's fatal-validation loop (`driverRun`).

Machine `float` values are embedded as exact rationals (`ℚ`); the two
transcendental library calls (`std::sqrt`, `std::atan2`) are supplied as an
oracle structure `Env`, so every theorem holds for any implementation of
them (where a concrete value matters, e.g. `sqrt 81 = 9`, it is an explicit
hypothesis, exact in IEEE as well).  The C library `rand()` is embedded as a
stream `rng : Nat → Nat` of non-negative draws consumed left to right with an
explicit cursor, matching the sequential calls in the C++ entity loops.
Per-agent attribute arrays all have length `entity_count` throughout the
pipeline (`Initialize` sizes them together), so they are embedded as total
functions `Nat → _` indexed by the dense agent index.
-/

/-- `ActionType` from `Components.h` (fixed enumeration). -/
inductive ActionType where
  | IDLE
  | MOVE_TO_TARGET
  | EAT
  | SLEEP
  | FLEE
  | ATTACK
  | EXPLORE
  deriving DecidableEq, Repr

/-- `INVALID_ENTITY = UINT32_MAX` from `Components.h`. -/
def invalidEntity : Nat := 4294967295

/-- Point update of an attribute array (a single `arr[i] = v` store). -/
def upd {α : Type} (f : Nat → α) (i : Nat) (v : α) : Nat → α :=
  fun j => if j = i then v else f j

@[simp] lemma upd_self {α : Type} (f : Nat → α) (i : Nat) (v : α) :
    upd f i v i = v := by simp [upd]

lemma upd_other {α : Type} (f : Nat → α) (i : Nat) (v : α) (j : Nat)
    (h : j ≠ i) : upd f i v j = f j := by simp [upd, h]

/-- The `GameState` attribute store from `Components.h` (SoA layout;
arrays of common length `entity_count` embedded as functions). -/
structure GameState where
  entity_count : Nat
  -- TransformComponents
  pos_x : Nat → ℚ
  pos_y : Nat → ℚ
  vel_x : Nat → ℚ
  vel_y : Nat → ℚ
  orientation : Nat → ℚ
  -- PerceptionComponents
  view_range : Nat → ℚ
  view_angle : Nat → ℚ
  visible_count : Nat → Nat
  -- NeedsComponents
  hunger : Nat → ℚ
  energy : Nat → ℚ
  safety : Nat → ℚ
  curiosity : Nat → ℚ
  -- ActionComponents
  current_action : Nat → ActionType
  action_utility : Nat → ℚ
  target_entity : Nat → Nat
  target_x : Nat → ℚ
  target_y : Nat → ℚ
  -- HealthComponents
  health : Nat → ℚ
  max_health : Nat → ℚ
  armor_type : Nat → Nat
  is_alive : Nat → Bool
  -- StimulusBuffer
  visible_entities : Nat → List Nat

/-- Environment for a run: oracles for the two math-library calls and the
`rand()` stream.  Theorems quantify over it. -/
structure Env where
  sqrtO : ℚ → ℚ
  atan2O : ℚ → ℚ → ℚ
  rng : Nat → Nat

/-- `static_cast<int>` of a float value: truncation toward zero. -/
def truncQ (q : ℚ) : ℤ := if 0 ≤ q then ⌊q⌋ else ⌈q⌉

/-- The IEEE-double value of `M_PI` as an exact rational. -/
def piQ : ℚ := 884279719003555 / 281474976710656

/-- The angle-difference normalization loop of `PerceptionSystem::Update`
(`while (d > π) d -= 2π; while (d < -π) d += 2π;`) in closed form: the first
loop runs `⌈(d-π)/(2π)⌉` times when `d > π`, the second symmetrically. -/
def normLoop (q : ℚ) : ℚ :=
  let k : ℤ := if piQ < q then ⌈(q - piQ) / (2 * piQ)⌉ else 0
  let q1 := q - 2 * piQ * k
  let m : ℤ := if q1 < -piQ then ⌈(-piQ - q1) / (2 * piQ)⌉ else 0
  q1 + 2 * piQ * m

/-- `SpatialGrid::Insert` from `Components.h`: cell = `int(coord/CELL_SIZE) %
GRID_SIZE` (C++ truncated `%`, i.e. `Int.tmod`), appended only when both cell
coordinates pass the `0 ≤ _ < GRID_SIZE` guard.  `CELL_SIZE = 10`,
`GRID_SIZE = 100`. -/
def insertGrid (g : Int → Int → List Nat) (id : Nat) (x y : ℚ) :
    Int → Int → List Nat :=
  let gx := (truncQ (x / 10)).tmod 100
  let gy := (truncQ (y / 10)).tmod 100
  if 0 ≤ gx ∧ gx < 100 ∧ 0 ≤ gy ∧ gy < 100 then
    fun a b => if a = gx ∧ b = gy then g a b ++ [id] else g a b
  else g

/-- Grid rebuild (Step 1 of `PerceptionSystem::Update`): clear all buckets,
then insert every live agent in ascending index order. -/
def buildGrid (s : GameState) : Int → Int → List Nat :=
  (List.range s.entity_count).foldl
    (fun g i => if s.is_alive i = true then insertGrid g i (s.pos_x i) (s.pos_y i) else g)
    (fun _ _ => [])

/-- The 3×3 block of cells visited around an observer at `(x, y)`
(`PerceptionSystem::Update`, the `dx/dy` loops): each coordinate is
`(int(coord/10) + d) % 100` with C++ truncated `%`, and a cell is visited
only if both reduced coordinates pass the `0 ≤ _ < 100` check. -/
def neighborCells (x y : ℚ) : List (ℤ × ℤ) :=
  let gx := truncQ (x / 10)
  let gy := truncQ (y / 10)
  ([-1, 0, 1] : List ℤ).flatMap (fun dx =>
    ([-1, 0, 1] : List ℤ).filterMap (fun dy =>
      let cx := (gx + dx).tmod 100
      let cy := (gy + dy).tmod 100
      if 0 ≤ cx ∧ cx < 100 ∧ 0 ≤ cy ∧ cy < 100 then some (cx, cy) else none))

/-- Candidates collected from the visited cells' buckets, in traversal
order. -/
def queryNeighborhood (g : Int → Int → List Nat) (x y : ℚ) : List Nat :=
  (neighborCells x y).flatMap (fun c => g c.1 c.2)

/-- The per-candidate filter of `PerceptionSystem::Update`: skip self, skip
dead targets, skip targets beyond the squared view range, keep targets whose
normalized bearing difference is within half the view angle. -/
def visiblePred (env : Env) (s : GameState) (obs t : Nat) : Bool :=
  if t = obs then false
  else if s.is_alive t = false then false
  else
    let dx := s.pos_x t - s.pos_x obs
    let dy := s.pos_y t - s.pos_y obs
    let dsq := dx * dx + dy * dy
    if s.view_range obs * s.view_range obs < dsq then false
    else
      let ad := normLoop |env.atan2O dy dx - s.orientation obs|
      decide (|ad| ≤ s.view_angle obs / 2)

/-- `PerceptionSystem::Update` (`Systems.h`): rebuild the grid, clear the
stimulus buffer, and for each live observer collect and filter the 3×3
neighborhood candidates; `visible_entity_count` is set to the size of the
visible set for live observers only.  Each observer's output depends only on
the pre-pass state (the pass writes no field it reads), so the sequential
observer loop is embedded pointwise. -/
def perceptionUpdate (env : Env) (s : GameState) : GameState :=
  let g := buildGrid s
  let vis : Nat → List Nat := fun i =>
    if i < s.entity_count ∧ s.is_alive i = true then
      (queryNeighborhood g (s.pos_x i) (s.pos_y i)).filter (fun t => visiblePred env s i t)
    else []
  { s with
    visible_entities := vis
    visible_count := fun i =>
      if i < s.entity_count ∧ s.is_alive i = true then (vis i).length
      else s.visible_count i }

/-- `UtilitySystem::QuadraticCurve`. -/
def QuadraticCurve (x : ℚ) : ℚ := x * x

/-- `UtilitySystem::CalculateEatUtility`. -/
def CalculateEatUtility (s : GameState) (i : Nat) : ℚ :=
  s.hunger i * QuadraticCurve (s.hunger i)

/-- `UtilitySystem::CalculateSleepUtility`. -/
def CalculateSleepUtility (s : GameState) (i : Nat) : ℚ :=
  (1 - s.energy i) * QuadraticCurve (1 - s.energy i)

/-- `UtilitySystem::CalculateFleeUtility`. -/
def CalculateFleeUtility (s : GameState) (i : Nat) : ℚ :=
  (1 - s.safety i) * QuadraticCurve (1 - s.safety i) * 1.5

/-- `UtilitySystem::CalculateExploreUtility`. -/
def CalculateExploreUtility (s : GameState) (i : Nat) : ℚ :=
  s.curiosity i * s.energy i

/-- `UtilitySystem::CalculateAttackUtility` (forced to 0 when the visible
set is empty). -/
def CalculateAttackUtility (s : GameState) (i : Nat) : ℚ :=
  if s.visible_entities i = [] then 0 else s.hunger i * s.energy i * 0.8

/-- The action-selection chain of `UtilitySystem::Update` (lines 146-169):
baseline `(IDLE, 0)`, then five `if (u > max_utility)` updates in source
order eat, sleep, flee, explore, attack. -/
def selectAction (eatU sleepU fleeU exploreU attackU : ℚ) : ActionType × ℚ :=
  let p0 : ActionType × ℚ := (ActionType.IDLE, 0)
  let p1 := if p0.2 < eatU then (ActionType.EAT, eatU) else p0
  let p2 := if p1.2 < sleepU then (ActionType.SLEEP, sleepU) else p1
  let p3 := if p2.2 < fleeU then (ActionType.FLEE, fleeU) else p2
  let p4 := if p3.2 < exploreU then (ActionType.EXPLORE, exploreU) else p3
  if p4.2 < attackU then (ActionType.ATTACK, attackU) else p4

/-- The selected action for agent `i` as a function of the pre-pass state. -/
def bestOf (s : GameState) (i : Nat) : ActionType :=
  (selectAction (CalculateEatUtility s i) (CalculateSleepUtility s i)
    (CalculateFleeUtility s i) (CalculateExploreUtility s i)
    (CalculateAttackUtility s i)).1

/-- The winning utility for agent `i` as a function of the pre-pass state. -/
def bestUtilOf (s : GameState) (i : Nat) : ℚ :=
  (selectAction (CalculateEatUtility s i) (CalculateSleepUtility s i)
    (CalculateFleeUtility s i) (CalculateExploreUtility s i)
    (CalculateAttackUtility s i)).2

/-- One iteration of the `UtilitySystem::Update` entity loop: skip dead
agents; otherwise write the winning action and utility, then set the target
(attack: snapshot first visible agent's position; explore: own position plus
two fresh `rand() % 20 - 10` draws). -/
def utilityStep (env : Env) (i : Nat) (sc : GameState × Nat) : GameState × Nat :=
  let s := sc.1
  let c := sc.2
  if s.is_alive i = true then
    let bm := selectAction (CalculateEatUtility s i) (CalculateSleepUtility s i)
      (CalculateFleeUtility s i) (CalculateExploreUtility s i)
      (CalculateAttackUtility s i)
    let s1 := { s with
      current_action := upd s.current_action i bm.1
      action_utility := upd s.action_utility i bm.2 }
    if bm.1 = ActionType.ATTACK ∧ ¬(s.visible_entities i = []) then
      let t := (s.visible_entities i).headI
      ({ s1 with
        target_entity := upd s1.target_entity i t
        target_x := upd s1.target_x i (s.pos_x t)
        target_y := upd s1.target_y i (s.pos_y t) }, c)
    else if bm.1 = ActionType.EXPLORE then
      ({ s1 with
        target_x := upd s1.target_x i (s.pos_x i + ((env.rng c % 20 : Nat) - 10 : ℚ))
        target_y := upd s1.target_y i (s.pos_y i + ((env.rng (c + 1) % 20 : Nat) - 10 : ℚ)) },
        c + 2)
    else (s1, c)
  else sc

/-- `UtilitySystem::Update`: the sequential entity loop (the `rand()` cursor
threads through it). -/
def utilityUpdate (env : Env) (sc : GameState × Nat) : GameState × Nat :=
  (List.range sc.1.entity_count).foldl (fun sc i => utilityStep env i sc) sc

/-- `KineticSystem::MAX_SPEED`. -/
def MAX_SPEED : ℚ := 5

/-- `KineticSystem::ACCELERATION`. -/
def ACCELERATION : ℚ := 2

/-- The action-based velocity update of `KineticSystem::Update` (lines
204-258): seek `target_position` for move-to-target/attack/explore (with the
0.1 dead zone), flee from the first visible agent at 1.5× acceleration, damp
by 0.9 per call for sleep/idle. -/
def kineticVelUpdate (env : Env) (dt : ℚ) (i : Nat) (s : GameState) : GameState :=
  let action := s.current_action i
  if action = ActionType.MOVE_TO_TARGET ∨ action = ActionType.ATTACK ∨
      action = ActionType.EXPLORE then
    let dx := s.target_x i - s.pos_x i
    let dy := s.target_y i - s.pos_y i
    let distance := env.sqrtO (dx * dx + dy * dy)
    if 0.1 < distance then
      { s with
        vel_x := upd s.vel_x i (s.vel_x i + dx / distance * ACCELERATION * dt)
        vel_y := upd s.vel_y i (s.vel_y i + dy / distance * ACCELERATION * dt)
        orientation := upd s.orientation i (env.atan2O dy dx) }
    else s
  else if action = ActionType.FLEE then
    match s.visible_entities i with
    | [] => s
    | threat :: _ =>
      let dx := s.pos_x i - s.pos_x threat
      let dy := s.pos_y i - s.pos_y threat
      let distance := env.sqrtO (dx * dx + dy * dy)
      if 0.1 < distance then
        { s with
          vel_x := upd s.vel_x i (s.vel_x i + dx / distance * ACCELERATION * 1.5 * dt)
          vel_y := upd s.vel_y i (s.vel_y i + dy / distance * ACCELERATION * 1.5 * dt) }
      else s
  else if action = ActionType.SLEEP ∨ action = ActionType.IDLE then
    { s with
      vel_x := upd s.vel_x i (s.vel_x i * 0.9)
      vel_y := upd s.vel_y i (s.vel_y i * 0.9) }
  else s

/-- The velocity-magnitude clamp of `KineticSystem::Update` (lines 260-268). -/
def kineticClampSpeed (env : Env) (i : Nat) (s : GameState) : GameState :=
  let ssq := s.vel_x i * s.vel_x i + s.vel_y i * s.vel_y i
  if MAX_SPEED * MAX_SPEED < ssq then
    let speed := env.sqrtO ssq
    { s with
      vel_x := upd s.vel_x i (s.vel_x i / speed * MAX_SPEED)
      vel_y := upd s.vel_y i (s.vel_y i / speed * MAX_SPEED) }
  else s

/-- One iteration of the `KineticSystem::Update` entity loop: skip dead
agents; otherwise action-based velocity update, speed clamp, forward-Euler
position integration, and the hard clamp of the position into `[0,1000]`
per axis. -/
def kineticStep (env : Env) (dt : ℚ) (i : Nat) (s : GameState) : GameState :=
  if s.is_alive i = true then
    let s2 := kineticClampSpeed env i (kineticVelUpdate env dt i s)
    let s3 := { s2 with
      pos_x := upd s2.pos_x i (s2.pos_x i + s2.vel_x i * dt)
      pos_y := upd s2.pos_y i (s2.pos_y i + s2.vel_y i * dt) }
    { s3 with
      pos_x := upd s3.pos_x i (max 0 (min 1000 (s3.pos_x i)))
      pos_y := upd s3.pos_y i (max 0 (min 1000 (s3.pos_y i))) }
  else s

/-- `KineticSystem::Update`: the sequential entity loop. -/
def kineticUpdate (env : Env) (dt : ℚ) (s : GameState) : GameState :=
  (List.range s.entity_count).foldl (fun s i => kineticStep env dt i s) s

/-- One iteration of the `NeedsSystem::Update` entity loop: skip dead
agents; otherwise age hunger, energy (sleep regenerates), hunger again when
eating, safety (by crowding), and randomly perturb curiosity, each mutation
clamped at the point of update exactly as in the source. -/
def needsStep (env : Env) (dt : ℚ) (i : Nat) (sc : GameState × Nat) : GameState × Nat :=
  let s := sc.1
  let c := sc.2
  if s.is_alive i = true then
    let action := s.current_action i
    let s := { s with hunger := upd s.hunger i (min 1 (s.hunger i + 0.01 * dt)) }
    let s :=
      if action = ActionType.SLEEP then
        { s with energy := upd s.energy i (min 1 (s.energy i + 0.1 * dt)) }
      else
        { s with energy := upd s.energy i (max 0 (s.energy i - 0.02 * dt)) }
    let s :=
      if action = ActionType.EAT then
        { s with hunger := upd s.hunger i (max 0 (s.hunger i - 0.15 * dt)) }
      else s
    let s :=
      if 3 < s.visible_count i then
        { s with safety := upd s.safety i (max 0 (s.safety i - 0.05 * dt)) }
      else
        { s with safety := upd s.safety i (min 1 (s.safety i + 0.03 * dt)) }
    let cur := s.curiosity i + ((env.rng c % 100 : Nat) - 50 : ℚ) * 0.001 * dt
    let s := { s with curiosity := upd s.curiosity i (max 0 (min 1 cur)) }
    (s, c + 1)
  else sc

/-- `NeedsSystem::Update`: the sequential entity loop (the `rand()` cursor
threads through it). -/
def needsUpdate (env : Env) (dt : ℚ) (sc : GameState × Nat) : GameState × Nat :=
  (List.range sc.1.entity_count).foldl (fun sc i => needsStep env dt i sc) sc

/-- One frame of the main-loop pipeline (`main.cpp` lines 142-180):
perception → decision → kinematics → drives, each completing for all agents
before the next begins. -/
def frameUpdate (env : Env) (dt : ℚ) (sc : GameState × Nat) : GameState × Nat :=
  let s1 := perceptionUpdate env sc.1
  let sc2 := utilityUpdate env (s1, sc.2)
  let s3 := kineticUpdate env dt sc2.1
  needsUpdate env dt (s3, sc2.2)

/-- `n` frames of the pipeline. -/
def runFrames (env : Env) (dt : ℚ) : Nat → GameState × Nat → GameState × Nat
  | 0, sc => sc
  | n + 1, sc => runFrames env dt n (frameUpdate env dt sc)

/-- `InitializeEntities` from `main.cpp`: positions and needs from the
seeded uniform draws (`posd` in `[0,1000)`, `needd` in `[0,1)`, orientation
from `angd`), zero velocity, `view_range = 50 + i % 50`, 90° FOV, all
actions idle with no target, full health, everyone alive.  Draw streams are
indexed by the order the source consumes them per entity. -/
def initState (count : Nat) (posd needd angd : Nat → ℚ) : GameState where
  entity_count := count
  pos_x := fun i => posd (2 * i)
  pos_y := fun i => posd (2 * i + 1)
  vel_x := fun _ => 0
  vel_y := fun _ => 0
  orientation := fun i => angd i
  view_range := fun i => 50 + (i % 50 : Nat)
  view_angle := fun _ => piQ / 2
  visible_count := fun _ => 0
  hunger := fun i => needd (4 * i)
  energy := fun i => needd (4 * i + 1)
  safety := fun i => needd (4 * i + 2)
  curiosity := fun i => needd (4 * i + 3)
  current_action := fun _ => ActionType.IDLE
  action_utility := fun _ => 0
  target_entity := fun _ => invalidEntity
  target_x := fun _ => 0
  target_y := fun _ => 0
  health := fun _ => 100
  max_health := fun _ => 100
  armor_type := fun i => i % 3
  is_alive := fun _ => true
  visible_entities := fun _ => []

/-- The `UtilitySystem` entity loop over an explicit bound. -/
def utilityFold (env : Env) (n : Nat) (sc : GameState × Nat) : GameState × Nat :=
  (List.range n).foldl (fun sc i => utilityStep env i sc) sc

/-- The `KineticSystem` entity loop over an explicit bound. -/
def kineticFold (env : Env) (dt : ℚ) (n : Nat) (s : GameState) : GameState :=
  (List.range n).foldl (fun s i => kineticStep env dt i s) s

/-- The `NeedsSystem` entity loop over an explicit bound. -/
def needsFold (env : Env) (dt : ℚ) (n : Nat) (sc : GameState × Nat) : GameState × Nat :=
  (List.range n).foldl (fun sc i => needsStep env dt i sc) sc

/-- The needs-range part of the spec's invariant for agent `i`. -/
def NeedsInRange (s : GameState) (i : Nat) : Prop :=
  0 ≤ s.hunger i ∧ s.hunger i ≤ 1 ∧ 0 ≤ s.energy i ∧ s.energy i ≤ 1 ∧
  0 ≤ s.safety i ∧ s.safety i ≤ 1 ∧ 0 ≤ s.curiosity i ∧ s.curiosity i ≤ 1

/-- The world-bounds part of the spec's invariant for agent `i`. -/
def PosInRange (s : GameState) (i : Nat) : Prop :=
  0 ≤ s.pos_x i ∧ s.pos_x i ≤ 1000 ∧ 0 ≤ s.pos_y i ∧ s.pos_y i ≤ 1000

/-- The spec's state invariant: every agent's needs lie in `[0,1]` and its
position in `[0,1000]²`. -/
def StateInv (s : GameState) : Prop :=
  ∀ i, i < s.entity_count → NeedsInRange s i ∧ PosInRange s i

/-!
## Validator model (`Diagnostics.h`, `main.cpp` driver loop)

`SystemValidator::ValidateState` receives a read-only snapshot and inspects
raw array sizes and IEEE special values, so its snapshot is embedded
separately: each attribute group carries its own length, and each float slot
is a `FloatVal` that can be NaN or ±Inf.
-/

/-- A machine float as seen by the validator: NaN, ±infinity, or a finite
value. -/
inductive FloatVal where
  | nan : FloatVal
  | posInf : FloatVal
  | negInf : FloatVal
  | fin : ℚ → FloatVal
  deriving DecidableEq, Repr

/-- `std::isnan`. -/
def isnanF : FloatVal → Bool
  | .nan => true
  | _ => false

/-- `std::isinf` (true for both infinities). -/
def isinfF : FloatVal → Bool
  | .posInf => true
  | .negInf => true
  | _ => false

/-- IEEE `<` on floats: any comparison with NaN is false. -/
def ltF : FloatVal → FloatVal → Bool
  | .nan, _ => false
  | _, .nan => false
  | .negInf, .negInf => false
  | .negInf, _ => true
  | _, .negInf => false
  | .posInf, _ => false
  | _, .posInf => true
  | .fin a, .fin b => decide (a < b)

/-- The read-only snapshot handed to `SystemValidator::ValidateState`: the
per-group array lengths (`Size()` of each component group) and the float
slots the validator reads. -/
structure ValSnapshot where
  entity_count : Nat
  transforms_size : Nat
  perception_size : Nat
  needs_size : Nat
  actions_size : Nat
  health_size : Nat
  position_x : Nat → FloatVal
  position_y : Nat → FloatVal
  hunger : Nat → FloatVal
  energy : Nat → FloatVal
  safety : Nat → FloatVal
  curiosity : Nat → FloatVal

/-- The per-entity body of the validator's loop (`Diagnostics.h` lines
212-225): `position_x` must be neither NaN nor Inf, and `hunger` must be
neither NaN nor outside `[0,1]`. -/
def validEntity (s : ValSnapshot) (i : Nat) : Bool :=
  !(isnanF (s.position_x i) || isinfF (s.position_x i)) &&
  !(isnanF (s.hunger i) || ltF (s.hunger i) (.fin 0) || ltF (.fin 1) (s.hunger i))

/-- `SystemValidator::ValidateState`: the conjunction of the four size
checks (transforms, perception, needs, actions) and the per-entity loop.
The source accumulates one `valid` flag over all checks, so the result is
their conjunction. -/
def ValidateState (s : ValSnapshot) : Bool :=
  (s.transforms_size == s.entity_count) &&
  (s.perception_size == s.entity_count) &&
  (s.needs_size == s.entity_count) &&
  (s.actions_size == s.entity_count) &&
  (List.range s.entity_count).all (fun i => validEntity s i)

/-- Frame iteration of an arbitrary per-frame transition (the pipeline
stages of `main.cpp` abstracted to one function). -/
def stepIter (step : ValSnapshot → ValSnapshot) : Nat → ValSnapshot → ValSnapshot
  | 0, s => s
  | n + 1, s => stepIter step n (step s)

/-- The driver loop of `main.cpp` (lines 142-192) with the stage pipeline
abstracted: run up to `n` frames starting at frame number `frame`; after
each frame consult the validator, and on failure stop and surface the
failing frame number. -/
def driverRunFrom (step : ValSnapshot → ValSnapshot) (frame : Nat) :
    Nat → ValSnapshot → Option Nat
  | 0, _ => none
  | n + 1, s =>
    let s' := step s
    if ValidateState s' = false then some frame
    else driverRunFrom step (frame + 1) n s'

/-- The driver loop started at frame 0. -/
def driverRun (step : ValSnapshot → ValSnapshot) (n : Nat) (s : ValSnapshot) :
    Option Nat :=
  driverRunFrom step 0 n s

/-!
## Concrete instances used to exercise the definitions

Small explicit states, environments and snapshots at which the theorems
below are instantiated; every field is a closed value so the pipeline can be
evaluated by `decide`.
-/

/-- A one-size-fits-most concrete state: all agents alive and idle at
`(100,100)` with needs `1/2` (safety 1, curiosity 0), view range 50, FOV 1
radian, facing along the x axis. -/
def baseState (count : Nat) : GameState where
  entity_count := count
  pos_x := fun _ => 100
  pos_y := fun _ => 100
  vel_x := fun _ => 0
  vel_y := fun _ => 0
  orientation := fun _ => 0
  view_range := fun _ => 50
  view_angle := fun _ => 1
  visible_count := fun _ => 0
  hunger := fun _ => 1/2
  energy := fun _ => 1/2
  safety := fun _ => 1
  curiosity := fun _ => 0
  current_action := fun _ => ActionType.IDLE
  action_utility := fun _ => 0
  target_entity := fun _ => invalidEntity
  target_x := fun _ => 0
  target_y := fun _ => 0
  health := fun _ => 100
  max_health := fun _ => 100
  armor_type := fun _ => 0
  is_alive := fun _ => true
  visible_entities := fun _ => []

/-- Trivial oracles and a constant-zero `rand()` stream. -/
def envW : Env where
  sqrtO := fun _ => 0
  atan2O := fun _ _ => 0
  rng := fun _ => 0

/-- Oracle environment returning the exact square root at 81 (the only
argument the damping scenario evaluates; `sqrtf(81) = 9` exactly in IEEE
too). -/
def env2 : Env where
  sqrtO := fun q => if q = 81 then 9 else 0
  atan2O := fun _ _ => 0
  rng := fun _ => 0

/-- One idle live agent with velocity `(10, 0)` (the damping scenario). -/
def dampState : GameState :=
  { baseState 1 with vel_x := fun _ => 10 }

/-- One live agent with hunger 1, energy 0, safety 0 (empty visible set). -/
def tieLowSafety : GameState :=
  { baseState 1 with
    hunger := fun _ => 1
    energy := fun _ => 0
    safety := fun _ => 0 }

/-- One live agent with hunger 1, energy 0, safety 1 (empty visible set). -/
def tieHighSafety : GameState :=
  { baseState 1 with
    hunger := fun _ => 1
    energy := fun _ => 0 }

/-- A grid holding exactly agent 7 at `(995, 5)`, i.e. in cell `(99, 0)`. -/
def gridEdge : Int → Int → List Nat :=
  insertGrid (fun _ _ => []) 7 995 5

/-- Two live agents at `x = 999` and `x = 1` with equal `y = 5` (the
boundary-wrap scenario). -/
def wrapState : GameState :=
  { baseState 2 with
    pos_x := fun i => if i = 0 then 999 else 1
    pos_y := fun _ => 5 }

/-- Agent 0 at `(48, 50)` sees agent 1 at `(50, 50)`; agent 0's utilities
make attack win (hunger = energy = 1/2). -/
def attackState : GameState :=
  { baseState 2 with
    pos_x := fun i => if i = 0 then 48 else 50
    pos_y := fun _ => 50 }

/-- Two agents of which agent 1 is dead. -/
def deadState : GameState :=
  { baseState 2 with is_alive := fun i => if i = 1 then false else true }

/-- One live agent whose utilities make explore win (curiosity = energy = 1,
hunger = 0). -/
def exploreState : GameState :=
  { baseState 1 with
    hunger := fun _ => 0
    energy := fun _ => 1
    curiosity := fun _ => 1 }

/-- A snapshot with a wrong `health` array length, a NaN `position_y`, and
`energy = 2`, but with every field the validator actually reads in a valid
state. -/
def snapPass : ValSnapshot where
  entity_count := 1
  transforms_size := 1
  perception_size := 1
  needs_size := 1
  actions_size := 1
  health_size := 0
  position_x := fun _ => .fin 500
  position_y := fun _ => .nan
  hunger := fun _ => .fin (1/2)
  energy := fun _ => .fin 2
  safety := fun _ => .fin (1/2)
  curiosity := fun _ => .fin (1/2)

/-- A snapshot the validator rejects: `hunger = 2 > 1`. -/
def snapFail : ValSnapshot :=
  { snapPass with
    health_size := 1
    position_y := fun _ => .fin 0
    hunger := fun _ => .fin 2
    energy := fun _ => .fin 0 }

/-!
## Generic loop lemmas

The C++ systems are entity loops; these lemmas transport per-iteration facts
over the corresponding `List.foldl`.
-/

section FoldLemmas

variable {σ : Type}

lemma foldl_proj {α : Type} (f : σ → Nat → σ) (g : σ → α)
    (hf : ∀ sc i, g (f sc i) = g sc) :
    ∀ (l : List Nat) (sc : σ), g (l.foldl f sc) = g sc := by
  intro l
  induction l with
  | nil => intro sc; rfl
  | cons a t ih => intro sc; rw [List.foldl_cons, ih, hf]

lemma foldl_inv (f : σ → Nat → σ) (P : σ → Prop)
    (hf : ∀ sc i, P sc → P (f sc i)) :
    ∀ (l : List Nat) (sc : σ), P sc → P (l.foldl f sc) := by
  intro l
  induction l with
  | nil => intro sc h; exact h
  | cons a t ih => intro sc h; exact ih _ (hf _ _ h)

end FoldLemmas

/-!
## Which fields each system writes

Each entity-loop iteration writes only its own component group; these shape
lemmas record that and drive all frame-coherence arguments below.
-/

lemma utilityStep_shape (env : Env) (i : Nat) (sc : GameState × Nat) :
    ∃ ca au te tx ty c',
      utilityStep env i sc =
        ({ sc.1 with
           current_action := ca
           action_utility := au
           target_entity := te
           target_x := tx
           target_y := ty }, c') := by
  simp only [utilityStep]
  split
  · split
    · exact ⟨_, _, _, _, _, _, rfl⟩
    · split
      · exact ⟨_, _, _, _, _, _, rfl⟩
      · exact ⟨_, _, _, _, _, _, rfl⟩
  · exact ⟨sc.1.current_action, sc.1.action_utility, sc.1.target_entity,
      sc.1.target_x, sc.1.target_y, sc.2, rfl⟩

lemma kineticVelUpdate_shape (env : Env) (dt : ℚ) (i : Nat) (s : GameState) :
    ∃ vx vy o,
      kineticVelUpdate env dt i s =
        { s with
          vel_x := vx
          vel_y := vy
          orientation := o } := by
  simp only [kineticVelUpdate]
  split
  · split
    · exact ⟨_, _, _, rfl⟩
    · exact ⟨s.vel_x, s.vel_y, s.orientation, rfl⟩
  · split
    · split
      · exact ⟨s.vel_x, s.vel_y, s.orientation, rfl⟩
      · split
        · exact ⟨_, _, s.orientation, rfl⟩
        · exact ⟨s.vel_x, s.vel_y, s.orientation, rfl⟩
    · split
      · exact ⟨_, _, s.orientation, rfl⟩
      · exact ⟨s.vel_x, s.vel_y, s.orientation, rfl⟩

lemma kineticClampSpeed_shape (env : Env) (i : Nat) (s : GameState) :
    ∃ vx vy,
      kineticClampSpeed env i s =
        { s with
          vel_x := vx
          vel_y := vy } := by
  simp only [kineticClampSpeed]
  split
  · exact ⟨_, _, rfl⟩
  · exact ⟨s.vel_x, s.vel_y, rfl⟩

lemma kineticStep_shape (env : Env) (dt : ℚ) (i : Nat) (s : GameState) :
    ∃ vx vy o px py,
      kineticStep env dt i s =
        { s with
          vel_x := vx
          vel_y := vy
          orientation := o
          pos_x := px
          pos_y := py } := by
  simp only [kineticStep]
  split
  · obtain ⟨vx, vy, o, h1⟩ := kineticVelUpdate_shape env dt i s
    obtain ⟨vx2, vy2, h2⟩ := kineticClampSpeed_shape env i (kineticVelUpdate env dt i s)
    rw [h2, h1]
    exact ⟨_, _, _, _, _, rfl⟩
  · exact ⟨s.vel_x, s.vel_y, s.orientation, s.pos_x, s.pos_y, rfl⟩

lemma needsStep_shape (env : Env) (dt : ℚ) (i : Nat) (sc : GameState × Nat) :
    ∃ h e sf cu c',
      needsStep env dt i sc =
        ({ sc.1 with
           hunger := h
           energy := e
           safety := sf
           curiosity := cu }, c') := by
  simp only [needsStep]
  split
  · split
    · split
      · split
        · exact ⟨_, _, _, _, _, rfl⟩
        · exact ⟨_, _, _, _, _, rfl⟩
      · split
        · exact ⟨_, _, _, _, _, rfl⟩
        · exact ⟨_, _, _, _, _, rfl⟩
    · split
      · split
        · exact ⟨_, _, _, _, _, rfl⟩
        · exact ⟨_, _, _, _, _, rfl⟩
      · split
        · exact ⟨_, _, _, _, _, rfl⟩
        · exact ⟨_, _, _, _, _, rfl⟩
  · exact ⟨sc.1.hunger, sc.1.energy, sc.1.safety, sc.1.curiosity, sc.2, rfl⟩

lemma foldl_range_succ {σ : Type} (f : σ → Nat → σ) (n : Nat) (sc : σ) :
    (List.range (n + 1)).foldl f sc = f ((List.range n).foldl f sc) n := by
  rw [List.range_succ, List.foldl_append, List.foldl_cons, List.foldl_nil]


lemma utilityUpdate_eq_fold (env : Env) (sc : GameState × Nat) :
    utilityUpdate env sc = utilityFold env sc.1.entity_count sc := rfl


lemma kineticUpdate_eq_fold (env : Env) (dt : ℚ) (s : GameState) :
    kineticUpdate env dt s = kineticFold env dt s.entity_count s := rfl


lemma needsUpdate_eq_fold (env : Env) (dt : ℚ) (sc : GameState × Nat) :
    needsUpdate env dt sc = needsFold env dt sc.1.entity_count sc := rfl

/-- The decision loop writes only the action component group. -/
lemma utilityFold_pres (env : Env) (n : Nat) (sc : GameState × Nat) :
    (utilityFold env n sc).1.entity_count = sc.1.entity_count ∧
    (utilityFold env n sc).1.pos_x = sc.1.pos_x ∧
    (utilityFold env n sc).1.pos_y = sc.1.pos_y ∧
    (utilityFold env n sc).1.vel_x = sc.1.vel_x ∧
    (utilityFold env n sc).1.vel_y = sc.1.vel_y ∧
    (utilityFold env n sc).1.orientation = sc.1.orientation ∧
    (utilityFold env n sc).1.view_range = sc.1.view_range ∧
    (utilityFold env n sc).1.view_angle = sc.1.view_angle ∧
    (utilityFold env n sc).1.visible_count = sc.1.visible_count ∧
    (utilityFold env n sc).1.hunger = sc.1.hunger ∧
    (utilityFold env n sc).1.energy = sc.1.energy ∧
    (utilityFold env n sc).1.safety = sc.1.safety ∧
    (utilityFold env n sc).1.curiosity = sc.1.curiosity ∧
    (utilityFold env n sc).1.is_alive = sc.1.is_alive ∧
    (utilityFold env n sc).1.visible_entities = sc.1.visible_entities := by
  induction n with
  | zero =>
    exact ⟨rfl, rfl, rfl, rfl, rfl, rfl, rfl, rfl, rfl, rfl, rfl, rfl, rfl, rfl, rfl⟩
  | succ n ih =>
    unfold utilityFold at ih ⊢
    rw [foldl_range_succ]
    obtain ⟨ca, au, te, tx, ty, c', h⟩ :=
      utilityStep_shape env n ((List.range n).foldl (fun sc i => utilityStep env i sc) sc)
    rw [h]
    exact ih

/-- The kinematics loop writes only the transform component group. -/
lemma kineticFold_pres (env : Env) (dt : ℚ) (n : Nat) (s : GameState) :
    (kineticFold env dt n s).entity_count = s.entity_count ∧
    (kineticFold env dt n s).view_range = s.view_range ∧
    (kineticFold env dt n s).view_angle = s.view_angle ∧
    (kineticFold env dt n s).visible_count = s.visible_count ∧
    (kineticFold env dt n s).hunger = s.hunger ∧
    (kineticFold env dt n s).energy = s.energy ∧
    (kineticFold env dt n s).safety = s.safety ∧
    (kineticFold env dt n s).curiosity = s.curiosity ∧
    (kineticFold env dt n s).current_action = s.current_action ∧
    (kineticFold env dt n s).action_utility = s.action_utility ∧
    (kineticFold env dt n s).target_entity = s.target_entity ∧
    (kineticFold env dt n s).target_x = s.target_x ∧
    (kineticFold env dt n s).target_y = s.target_y ∧
    (kineticFold env dt n s).is_alive = s.is_alive ∧
    (kineticFold env dt n s).visible_entities = s.visible_entities := by
  induction n with
  | zero =>
    exact ⟨rfl, rfl, rfl, rfl, rfl, rfl, rfl, rfl, rfl, rfl, rfl, rfl, rfl, rfl, rfl⟩
  | succ n ih =>
    unfold kineticFold at ih ⊢
    rw [foldl_range_succ]
    obtain ⟨vx, vy, o, px, py, h⟩ :=
      kineticStep_shape env dt n ((List.range n).foldl (fun s i => kineticStep env dt i s) s)
    rw [h]
    exact ih

/-- The drives loop writes only the needs component group. -/
lemma needsFold_pres (env : Env) (dt : ℚ) (n : Nat) (sc : GameState × Nat) :
    (needsFold env dt n sc).1.entity_count = sc.1.entity_count ∧
    (needsFold env dt n sc).1.pos_x = sc.1.pos_x ∧
    (needsFold env dt n sc).1.pos_y = sc.1.pos_y ∧
    (needsFold env dt n sc).1.vel_x = sc.1.vel_x ∧
    (needsFold env dt n sc).1.vel_y = sc.1.vel_y ∧
    (needsFold env dt n sc).1.orientation = sc.1.orientation ∧
    (needsFold env dt n sc).1.view_range = sc.1.view_range ∧
    (needsFold env dt n sc).1.view_angle = sc.1.view_angle ∧
    (needsFold env dt n sc).1.visible_count = sc.1.visible_count ∧
    (needsFold env dt n sc).1.current_action = sc.1.current_action ∧
    (needsFold env dt n sc).1.action_utility = sc.1.action_utility ∧
    (needsFold env dt n sc).1.target_entity = sc.1.target_entity ∧
    (needsFold env dt n sc).1.target_x = sc.1.target_x ∧
    (needsFold env dt n sc).1.target_y = sc.1.target_y ∧
    (needsFold env dt n sc).1.is_alive = sc.1.is_alive ∧
    (needsFold env dt n sc).1.visible_entities = sc.1.visible_entities := by
  induction n with
  | zero =>
    exact ⟨rfl, rfl, rfl, rfl, rfl, rfl, rfl, rfl, rfl, rfl, rfl, rfl, rfl, rfl, rfl, rfl⟩
  | succ n ih =>
    unfold needsFold at ih ⊢
    rw [foldl_range_succ]
    obtain ⟨h, e, sf, cu, c', hh⟩ :=
      needsStep_shape env dt n ((List.range n).foldl (fun sc i => needsStep env dt i sc) sc)
    rw [hh]
    exact ih

/-- The perception pass writes only the stimulus buffer and the visible
count. -/
lemma perceptionUpdate_pres (env : Env) (s : GameState) :
    (perceptionUpdate env s).entity_count = s.entity_count ∧
    (perceptionUpdate env s).pos_x = s.pos_x ∧
    (perceptionUpdate env s).pos_y = s.pos_y ∧
    (perceptionUpdate env s).vel_x = s.vel_x ∧
    (perceptionUpdate env s).vel_y = s.vel_y ∧
    (perceptionUpdate env s).orientation = s.orientation ∧
    (perceptionUpdate env s).view_range = s.view_range ∧
    (perceptionUpdate env s).view_angle = s.view_angle ∧
    (perceptionUpdate env s).hunger = s.hunger ∧
    (perceptionUpdate env s).energy = s.energy ∧
    (perceptionUpdate env s).safety = s.safety ∧
    (perceptionUpdate env s).curiosity = s.curiosity ∧
    (perceptionUpdate env s).current_action = s.current_action ∧
    (perceptionUpdate env s).action_utility = s.action_utility ∧
    (perceptionUpdate env s).target_entity = s.target_entity ∧
    (perceptionUpdate env s).target_x = s.target_x ∧
    (perceptionUpdate env s).target_y = s.target_y ∧
    (perceptionUpdate env s).is_alive = s.is_alive :=
  ⟨rfl, rfl, rfl, rfl, rfl, rfl, rfl, rfl, rfl, rfl, rfl, rfl, rfl, rfl, rfl, rfl, rfl, rfl⟩

lemma utilityStep_other (env : Env) (i : Nat) (sc : GameState × Nat) (j : Nat)
    (hj : j ≠ i) :
    (utilityStep env i sc).1.current_action j = sc.1.current_action j ∧
    (utilityStep env i sc).1.action_utility j = sc.1.action_utility j ∧
    (utilityStep env i sc).1.target_entity j = sc.1.target_entity j ∧
    (utilityStep env i sc).1.target_x j = sc.1.target_x j ∧
    (utilityStep env i sc).1.target_y j = sc.1.target_y j := by
  simp only [utilityStep]
  split
  · split
    · exact ⟨upd_other _ _ _ _ hj, upd_other _ _ _ _ hj, upd_other _ _ _ _ hj,
        upd_other _ _ _ _ hj, upd_other _ _ _ _ hj⟩
    · split
      · exact ⟨upd_other _ _ _ _ hj, upd_other _ _ _ _ hj, rfl,
          upd_other _ _ _ _ hj, upd_other _ _ _ _ hj⟩
      · exact ⟨upd_other _ _ _ _ hj, upd_other _ _ _ _ hj, rfl, rfl, rfl⟩
  · exact ⟨rfl, rfl, rfl, rfl, rfl⟩

lemma utilityStep_self (env : Env) (i : Nat) (sc : GameState × Nat)
    (ha : sc.1.is_alive i = true) :
    (utilityStep env i sc).1.current_action i = bestOf sc.1 i ∧
    (utilityStep env i sc).1.action_utility i = bestUtilOf sc.1 i := by
  simp only [utilityStep]
  rw [if_pos ha]
  split
  · exact ⟨upd_self _ _ _, upd_self _ _ _⟩
  · split
    · exact ⟨upd_self _ _ _, upd_self _ _ _⟩
    · exact ⟨upd_self _ _ _, upd_self _ _ _⟩

lemma utilityStep_attack (env : Env) (i : Nat) (sc : GameState × Nat)
    (ha : sc.1.is_alive i = true) (hb : bestOf sc.1 i = ActionType.ATTACK)
    (hv : ¬(sc.1.visible_entities i = [])) :
    (utilityStep env i sc).1.target_entity i = (sc.1.visible_entities i).headI ∧
    (utilityStep env i sc).1.target_x i = sc.1.pos_x ((sc.1.visible_entities i).headI) ∧
    (utilityStep env i sc).1.target_y i = sc.1.pos_y ((sc.1.visible_entities i).headI) := by
  have hb' : (selectAction (CalculateEatUtility sc.1 i) (CalculateSleepUtility sc.1 i)
      (CalculateFleeUtility sc.1 i) (CalculateExploreUtility sc.1 i)
      (CalculateAttackUtility sc.1 i)).1 = ActionType.ATTACK := hb
  simp only [utilityStep]
  rw [if_pos ha, if_pos ⟨hb', hv⟩]
  exact ⟨upd_self _ _ _, upd_self _ _ _, upd_self _ _ _⟩

lemma utilityStep_explore (env : Env) (i : Nat) (sc : GameState × Nat)
    (ha : sc.1.is_alive i = true) (hb : bestOf sc.1 i = ActionType.EXPLORE) :
    (utilityStep env i sc).1.target_x i =
      sc.1.pos_x i + ((env.rng sc.2 % 20 : Nat) - 10 : ℚ) ∧
    (utilityStep env i sc).1.target_y i =
      sc.1.pos_y i + ((env.rng (sc.2 + 1) % 20 : Nat) - 10 : ℚ) := by
  have hb' : (selectAction (CalculateEatUtility sc.1 i) (CalculateSleepUtility sc.1 i)
      (CalculateFleeUtility sc.1 i) (CalculateExploreUtility sc.1 i)
      (CalculateAttackUtility sc.1 i)).1 = ActionType.EXPLORE := hb
  simp only [utilityStep]
  rw [if_pos ha, if_neg (by simp [hb']), if_pos hb']
  exact ⟨upd_self _ _ _, upd_self _ _ _⟩

lemma bestOf_congr (s t : GameState) (i : Nat)
    (h1 : s.hunger i = t.hunger i) (h2 : s.energy i = t.energy i)
    (h3 : s.safety i = t.safety i) (h4 : s.curiosity i = t.curiosity i)
    (h5 : s.visible_entities i = t.visible_entities i) :
    bestOf s i = bestOf t i ∧ bestUtilOf s i = bestUtilOf t i := by
  unfold bestOf bestUtilOf CalculateEatUtility CalculateSleepUtility
    CalculateFleeUtility CalculateExploreUtility CalculateAttackUtility
  rw [h1, h2, h3, h4, h5]
  exact ⟨rfl, rfl⟩

lemma utilityFold_action_at (env : Env) (n : Nat) (sc : GameState × Nat) (i : Nat)
    (hi : i < n) (ha : sc.1.is_alive i = true) :
    (utilityFold env n sc).1.current_action i = bestOf sc.1 i ∧
    (utilityFold env n sc).1.action_utility i = bestUtilOf sc.1 i := by
  induction n with
  | zero => exact absurd hi (Nat.not_lt_zero i)
  | succ n ih =>
    have hstep : utilityFold env (n + 1) sc = utilityStep env n (utilityFold env n sc) := by
      unfold utilityFold
      exact foldl_range_succ _ n sc
    rw [hstep]
    rcases Nat.lt_succ_iff_lt_or_eq.mp hi with h | h
    · have hother := utilityStep_other env n (utilityFold env n sc) i (by omega)
      rw [hother.1, hother.2.1]
      exact ih h
    · subst h
      obtain ⟨hc, hpx, hpy, hvx, hvy, ho, hvr, hva, hvc, hh, he, hs, hcu, hal, hve⟩ :=
        utilityFold_pres env i sc
      have ha' : (utilityFold env i sc).1.is_alive i = true := by rw [hal]; exact ha
      have hself := utilityStep_self env i (utilityFold env i sc) ha'
      have hcongr := bestOf_congr (utilityFold env i sc).1 sc.1 i
        (by rw [hh]) (by rw [he]) (by rw [hs]) (by rw [hcu]) (by rw [hve])
      rw [hself.1, hself.2, hcongr.1, hcongr.2]
      exact ⟨rfl, rfl⟩

lemma utilityFold_attack_at (env : Env) (n : Nat) (sc : GameState × Nat) (i : Nat)
    (hi : i < n) (ha : sc.1.is_alive i = true)
    (hb : bestOf sc.1 i = ActionType.ATTACK)
    (hv : ¬(sc.1.visible_entities i = [])) :
    (utilityFold env n sc).1.target_entity i = (sc.1.visible_entities i).headI ∧
    (utilityFold env n sc).1.target_x i = sc.1.pos_x ((sc.1.visible_entities i).headI) ∧
    (utilityFold env n sc).1.target_y i = sc.1.pos_y ((sc.1.visible_entities i).headI) := by
  induction n with
  | zero => exact absurd hi (Nat.not_lt_zero i)
  | succ n ih =>
    have hstep : utilityFold env (n + 1) sc = utilityStep env n (utilityFold env n sc) := by
      unfold utilityFold
      exact foldl_range_succ _ n sc
    rw [hstep]
    rcases Nat.lt_succ_iff_lt_or_eq.mp hi with h | h
    · have hother := utilityStep_other env n (utilityFold env n sc) i (by omega)
      rw [hother.2.2.1, hother.2.2.2.1, hother.2.2.2.2]
      exact ih h
    · subst h
      obtain ⟨hc, hpx, hpy, hvx, hvy, ho, hvr, hva, hvc, hh, he, hs, hcu, hal, hve⟩ :=
        utilityFold_pres env i sc
      have ha' : (utilityFold env i sc).1.is_alive i = true := by rw [hal]; exact ha
      have hcongr := bestOf_congr (utilityFold env i sc).1 sc.1 i
        (by rw [hh]) (by rw [he]) (by rw [hs]) (by rw [hcu]) (by rw [hve])
      have hb' : bestOf (utilityFold env i sc).1 i = ActionType.ATTACK := by
        rw [hcongr.1]; exact hb
      have hv' : ¬((utilityFold env i sc).1.visible_entities i = []) := by
        rw [hve]; exact hv
      have hatt := utilityStep_attack env i (utilityFold env i sc) ha' hb' hv'
      rw [hatt.1, hatt.2.1, hatt.2.2, hve, hpx, hpy]
      exact ⟨rfl, rfl, rfl⟩

lemma utilityFold_explore_at (env : Env) (n : Nat) (sc : GameState × Nat) (i : Nat)
    (hi : i < n) (ha : sc.1.is_alive i = true)
    (hb : bestOf sc.1 i = ActionType.EXPLORE) :
    ∃ k : Nat,
      (utilityFold env n sc).1.target_x i =
        sc.1.pos_x i + ((env.rng k % 20 : Nat) - 10 : ℚ) ∧
      (utilityFold env n sc).1.target_y i =
        sc.1.pos_y i + ((env.rng (k + 1) % 20 : Nat) - 10 : ℚ) := by
  induction n with
  | zero => exact absurd hi (Nat.not_lt_zero i)
  | succ n ih =>
    have hstep : utilityFold env (n + 1) sc = utilityStep env n (utilityFold env n sc) := by
      unfold utilityFold
      exact foldl_range_succ _ n sc
    rw [hstep]
    rcases Nat.lt_succ_iff_lt_or_eq.mp hi with h | h
    · have hother := utilityStep_other env n (utilityFold env n sc) i (by omega)
      rw [hother.2.2.2.1, hother.2.2.2.2]
      exact ih h
    · subst h
      obtain ⟨hc, hpx, hpy, hvx, hvy, ho, hvr, hva, hvc, hh, he, hs, hcu, hal, hve⟩ :=
        utilityFold_pres env i sc
      have ha' : (utilityFold env i sc).1.is_alive i = true := by rw [hal]; exact ha
      have hcongr := bestOf_congr (utilityFold env i sc).1 sc.1 i
        (by rw [hh]) (by rw [he]) (by rw [hs]) (by rw [hcu]) (by rw [hve])
      have hb' : bestOf (utilityFold env i sc).1 i = ActionType.EXPLORE := by
        rw [hcongr.1]; exact hb
      have hexp := utilityStep_explore env i (utilityFold env i sc) ha' hb'
      refine ⟨(utilityFold env i sc).2, ?_, ?_⟩
      · rw [hexp.1, hpx]
      · rw [hexp.2, hpy]

lemma kineticStep_dead (env : Env) (dt : ℚ) (i : Nat) (s : GameState)
    (h : ¬(s.is_alive i = true)) : kineticStep env dt i s = s := by
  simp only [kineticStep]
  rw [if_neg h]

lemma kineticStep_pos_self (env : Env) (dt : ℚ) (i : Nat) (s : GameState)
    (ha : s.is_alive i = true) :
    ∃ a b, (kineticStep env dt i s).pos_x i = max 0 (min 1000 a) ∧
      (kineticStep env dt i s).pos_y i = max 0 (min 1000 b) := by
  simp only [kineticStep]
  rw [if_pos ha]
  exact ⟨_, _, upd_self _ _ _, upd_self _ _ _⟩

lemma kineticStep_pos_other (env : Env) (dt : ℚ) (i : Nat) (s : GameState) (j : Nat)
    (hj : j ≠ i) :
    (kineticStep env dt i s).pos_x j = s.pos_x j ∧
    (kineticStep env dt i s).pos_y j = s.pos_y j := by
  simp only [kineticStep]
  split
  · obtain ⟨vx, vy, o, h1⟩ := kineticVelUpdate_shape env dt i s
    obtain ⟨vx2, vy2, h2⟩ := kineticClampSpeed_shape env i (kineticVelUpdate env dt i s)
    rw [h2, h1]
    constructor
    · simp [upd, hj]
    · simp [upd, hj]
  · exact ⟨rfl, rfl⟩

lemma clamp_bounds (x : ℚ) : 0 ≤ max 0 (min 1000 x) ∧ max 0 (min 1000 x) ≤ 1000 :=
  ⟨le_max_left _ _, max_le (by norm_num) (min_le_left _ _)⟩

lemma kineticStep_inv (env : Env) (dt : ℚ) (i : Nat) (s : GameState)
    (hInv : StateInv s) : StateInv (kineticStep env dt i s) := by
  intro j hj
  obtain ⟨vx, vy, o, px, py, hsh⟩ := kineticStep_shape env dt i s
  have hj' : j < s.entity_count := by
    have : (kineticStep env dt i s).entity_count = s.entity_count := by rw [hsh]
    rw [this] at hj
    exact hj
  have hneeds : NeedsInRange (kineticStep env dt i s) j := by
    rw [hsh]
    exact (hInv j hj').1
  refine ⟨hneeds, ?_⟩
  by_cases hij : j = i
  · subst hij
    by_cases ha : s.is_alive j = true
    · obtain ⟨a, b, hx, hy⟩ := kineticStep_pos_self env dt j s ha
      unfold PosInRange
      rw [hx, hy]
      exact ⟨(clamp_bounds a).1, (clamp_bounds a).2, (clamp_bounds b).1, (clamp_bounds b).2⟩
    · rw [kineticStep_dead env dt j s ha]
      exact (hInv j hj').2
  · have hpos := kineticStep_pos_other env dt i s j hij
    unfold PosInRange
    rw [hpos.1, hpos.2]
    exact (hInv j hj').2

lemma utilityStep_inv (env : Env) (i : Nat) (sc : GameState × Nat)
    (h : StateInv sc.1) : StateInv (utilityStep env i sc).1 := by
  obtain ⟨ca, au, te, tx, ty, c', hsh⟩ := utilityStep_shape env i sc
  rw [hsh]
  intro j hj
  exact h j hj

lemma perceptionUpdate_inv (env : Env) (s : GameState) (h : StateInv s) :
    StateInv (perceptionUpdate env s) := by
  intro j hj
  exact h j hj

lemma needsStep_dead (env : Env) (dt : ℚ) (i : Nat) (sc : GameState × Nat)
    (h : ¬(sc.1.is_alive i = true)) : needsStep env dt i sc = sc := by
  simp only [needsStep]
  rw [if_neg h]

lemma min1_nonneg (x : ℚ) (hx : 0 ≤ x) : 0 ≤ min 1 x := le_min (by norm_num) hx

lemma max0_le_one (x : ℚ) (hx : x ≤ 1) : max 0 x ≤ 1 := max_le (by norm_num) hx

set_option maxHeartbeats 2000000 in
lemma needsStep_needs_self (env : Env) (dt : ℚ) (i : Nat) (sc : GameState × Nat)
    (hdt : 0 ≤ dt) (ha : sc.1.is_alive i = true) (h : NeedsInRange sc.1 i) :
    NeedsInRange (needsStep env dt i sc).1 i := by
  obtain ⟨h1, h2, h3, h4, h5, h6, h7, h8⟩ := h
  have hdt01 : (0 : ℚ) ≤ 0.01 * dt := by positivity
  have hdt02 : (0 : ℚ) ≤ 0.02 * dt := by positivity
  have hdt03 : (0 : ℚ) ≤ 0.03 * dt := by positivity
  have hdt05 : (0 : ℚ) ≤ 0.05 * dt := by positivity
  have hdt10 : (0 : ℚ) ≤ 0.1 * dt := by positivity
  have hdt15 : (0 : ℚ) ≤ 0.15 * dt := by positivity
  simp only [needsStep]
  rw [if_pos ha]
  unfold NeedsInRange
  split <;> split <;> split <;>
    (dsimp only; refine ⟨?_, ?_, ?_, ?_, ?_, ?_, ?_, ?_⟩) <;>
    simp only [upd_self] <;>
    first
      | exact le_max_left 0 _
      | exact min_le_left 1 _
      | exact min1_nonneg _ (add_nonneg h1 hdt01)
      | exact min1_nonneg _ (add_nonneg h3 hdt10)
      | exact min1_nonneg _ (add_nonneg h5 hdt03)
      | exact max0_le_one _ (le_trans (sub_le_self _ hdt15) (min_le_left 1 _))
      | exact max0_le_one _ (le_trans (sub_le_self _ hdt02) h4)
      | exact max0_le_one _ (le_trans (sub_le_self _ hdt05) h6)
      | exact max0_le_one _ (min_le_left 1 _)

set_option maxHeartbeats 1000000 in
lemma needsStep_other (env : Env) (dt : ℚ) (i : Nat) (sc : GameState × Nat) (j : Nat)
    (hj : j ≠ i) :
    (needsStep env dt i sc).1.hunger j = sc.1.hunger j ∧
    (needsStep env dt i sc).1.energy j = sc.1.energy j ∧
    (needsStep env dt i sc).1.safety j = sc.1.safety j ∧
    (needsStep env dt i sc).1.curiosity j = sc.1.curiosity j := by
  simp only [needsStep]
  split
  · split <;> split <;> split <;>
      (dsimp only; exact ⟨by simp [upd, hj], by simp [upd, hj], by simp [upd, hj],
        by simp [upd, hj]⟩)
  · exact ⟨rfl, rfl, rfl, rfl⟩

lemma needsStep_inv (env : Env) (dt : ℚ) (i : Nat) (sc : GameState × Nat)
    (hdt : 0 ≤ dt) (h : StateInv sc.1) : StateInv (needsStep env dt i sc).1 := by
  obtain ⟨nh, ne, nsf, ncu, c', hsh⟩ := needsStep_shape env dt i sc
  intro j hj
  have hj' : j < sc.1.entity_count := by
    have : (needsStep env dt i sc).1.entity_count = sc.1.entity_count := by rw [hsh]
    rw [this] at hj
    exact hj
  have hpos : PosInRange (needsStep env dt i sc).1 j := by
    rw [hsh]
    exact (h j hj').2
  refine ⟨?_, hpos⟩
  by_cases hij : j = i
  · subst hij
    by_cases ha : sc.1.is_alive j = true
    · exact needsStep_needs_self env dt j sc hdt ha (h j hj').1
    · rw [needsStep_dead env dt j sc ha]
      exact (h j hj').1
  · have ho := needsStep_other env dt i sc j hij
    unfold NeedsInRange
    rw [ho.1, ho.2.1, ho.2.2.1, ho.2.2.2]
    exact (h j hj').1

lemma utilityFold_inv (env : Env) (n : Nat) (sc : GameState × Nat)
    (h : StateInv sc.1) : StateInv (utilityFold env n sc).1 := by
  refine foldl_inv _ (fun sc => StateInv sc.1) ?_ (List.range n) sc h
  intro sc i hP
  exact utilityStep_inv env i sc hP

lemma kineticFold_inv (env : Env) (dt : ℚ) (n : Nat) (s : GameState)
    (h : StateInv s) : StateInv (kineticFold env dt n s) := by
  refine foldl_inv _ StateInv ?_ (List.range n) s h
  intro s i hP
  exact kineticStep_inv env dt i s hP

lemma needsFold_inv (env : Env) (dt : ℚ) (n : Nat) (sc : GameState × Nat)
    (hdt : 0 ≤ dt) (h : StateInv sc.1) : StateInv (needsFold env dt n sc).1 := by
  refine foldl_inv _ (fun sc => StateInv sc.1) ?_ (List.range n) sc h
  intro sc i hP
  exact needsStep_inv env dt i sc hdt hP

lemma frameUpdate_inv (env : Env) (dt : ℚ) (sc : GameState × Nat)
    (hdt : 0 ≤ dt) (h : StateInv sc.1) : StateInv (frameUpdate env dt sc).1 := by
  unfold frameUpdate
  rw [needsUpdate_eq_fold]
  apply needsFold_inv env dt _ _ hdt
  rw [kineticUpdate_eq_fold]
  apply kineticFold_inv
  rw [utilityUpdate_eq_fold]
  apply utilityFold_inv
  exact perceptionUpdate_inv env sc.1 h

lemma runFrames_inv (env : Env) (dt : ℚ) (n : Nat) (sc : GameState × Nat)
    (hdt : 0 ≤ dt) (h : StateInv sc.1) : StateInv (runFrames env dt n sc).1 := by
  induction n generalizing sc with
  | zero => exact h
  | succ n ih =>
    exact ih (frameUpdate env dt sc) (frameUpdate_inv env dt sc hdt h)

lemma initState_inv (count : Nat) (posd needd angd : Nat → ℚ)
    (hpos : ∀ k, 0 ≤ posd k ∧ posd k ≤ 1000)
    (hneed : ∀ k, 0 ≤ needd k ∧ needd k ≤ 1) :
    StateInv (initState count posd needd angd) := by
  intro i _
  refine ⟨⟨(hneed (4 * i)).1, (hneed (4 * i)).2, (hneed (4 * i + 1)).1,
    (hneed (4 * i + 1)).2, (hneed (4 * i + 2)).1, (hneed (4 * i + 2)).2,
    (hneed (4 * i + 3)).1, (hneed (4 * i + 3)).2⟩,
    (hpos (2 * i)).1, (hpos (2 * i)).2, (hpos (2 * i + 1)).1, (hpos (2 * i + 1)).2⟩

/-!
## Claim theorems
-/

/-- C1: Starting from an initialized state (seeded uniform draws: positions
in `[0,1000]`, needs in `[0,1]`) and running the per-frame pipeline
(perception with grid rebuild, decision, kinematics, drives), for every
frame and every agent, hunger, energy, safety and curiosity each lie in
`[0,1]` and the position lies in `[0,1000]²` at the end of every frame. -/
theorem c1_needs_position_invariant (env : Env) (dt : ℚ) (count n c : Nat)
    (posd needd angd : Nat → ℚ) (hdt : 0 ≤ dt)
    (hpos : ∀ k, 0 ≤ posd k ∧ posd k ≤ 1000)
    (hneed : ∀ k, 0 ≤ needd k ∧ needd k ≤ 1) :
    StateInv (runFrames env dt n (initState count posd needd angd, c)).1 :=
  runFrames_inv env dt n _ hdt (initState_inv count posd needd angd hpos hneed)

/-- Witness for C1: two agents, two frames, `Δt = 0.016`. -/
theorem c1_witness :
    StateInv (runFrames envW 0.016 2
      (initState 2 (fun _ => 500) (fun _ => 1/2) (fun _ => 0), 0)).1 :=
  c1_needs_position_invariant envW 0.016 2 2 0 _ _ _ (by norm_num)
    (fun _ => by norm_num) (fun _ => by norm_num)

lemma utilityStep_dead (env : Env) (i : Nat) (sc : GameState × Nat)
    (h : ¬(sc.1.is_alive i = true)) : utilityStep env i sc = sc := by
  simp only [utilityStep]
  rw [if_neg h]

lemma ite_fst_pred (P : ActionType → Prop) (c : Prop) [Decidable c]
    (x y : ActionType × ℚ) (hx : P x.1) (hy : P y.1) : P (if c then x else y).1 := by
  by_cases h : c
  · rw [if_pos h]; exact hx
  · rw [if_neg h]; exact hy

lemma selectAction_mem (e sl f ex a : ℚ) :
    (selectAction e sl f ex a).1 = ActionType.IDLE ∨
    (selectAction e sl f ex a).1 = ActionType.EAT ∨
    (selectAction e sl f ex a).1 = ActionType.SLEEP ∨
    (selectAction e sl f ex a).1 = ActionType.FLEE ∨
    (selectAction e sl f ex a).1 = ActionType.EXPLORE ∨
    (selectAction e sl f ex a).1 = ActionType.ATTACK := by
  unfold selectAction
  have step := ite_fst_pred
    (fun t => t = ActionType.IDLE ∨ t = ActionType.EAT ∨ t = ActionType.SLEEP ∨
      t = ActionType.FLEE ∨ t = ActionType.EXPLORE ∨ t = ActionType.ATTACK)
  exact step _ _ _ (Or.inr (Or.inr (Or.inr (Or.inr (Or.inr rfl)))))
    (step _ _ _ (Or.inr (Or.inr (Or.inr (Or.inr (Or.inl rfl)))))
      (step _ _ _ (Or.inr (Or.inr (Or.inr (Or.inl rfl))))
        (step _ _ _ (Or.inr (Or.inr (Or.inl rfl)))
          (step _ _ _ (Or.inr (Or.inl rfl)) (Or.inl rfl)))))

lemma bestOf_ne_move (s : GameState) (i : Nat) :
    bestOf s i ≠ ActionType.MOVE_TO_TARGET := by
  intro h
  rcases selectAction_mem (CalculateEatUtility s i) (CalculateSleepUtility s i)
    (CalculateFleeUtility s i) (CalculateExploreUtility s i)
    (CalculateAttackUtility s i) with h' | h' | h' | h' | h' | h' <;>
    rw [bestOf] at h <;> rw [h] at h' <;> exact absurd h' (by decide)

/-- No agent's current action is the never-assigned move-to-target. -/
def NoMove (s : GameState) : Prop :=
  ∀ i, s.current_action i ≠ ActionType.MOVE_TO_TARGET

lemma utilityStep_noMove (env : Env) (i : Nat) (sc : GameState × Nat)
    (h : NoMove sc.1) : NoMove (utilityStep env i sc).1 := by
  intro j
  by_cases hij : j = i
  · subst hij
    by_cases ha : sc.1.is_alive j = true
    · rw [(utilityStep_self env j sc ha).1]
      exact bestOf_ne_move sc.1 j
    · rw [utilityStep_dead env j sc ha]
      exact h j
  · rw [(utilityStep_other env i sc j hij).1]
    exact h j

lemma utilityFold_noMove (env : Env) (n : Nat) (sc : GameState × Nat)
    (h : NoMove sc.1) : NoMove (utilityFold env n sc).1 := by
  refine foldl_inv _ (fun sc => NoMove sc.1) ?_ (List.range n) sc h
  intro sc i hP
  exact utilityStep_noMove env i sc hP

lemma frameUpdate_noMove (env : Env) (dt : ℚ) (sc : GameState × Nat)
    (h : NoMove sc.1) : NoMove (frameUpdate env dt sc).1 := by
  unfold frameUpdate
  rw [needsUpdate_eq_fold]
  intro j
  rw [congrFun (needsFold_pres env dt _ _).2.2.2.2.2.2.2.2.2.1 j]
  rw [kineticUpdate_eq_fold]
  rw [congrFun (kineticFold_pres env dt _ _).2.2.2.2.2.2.2.2.1 j]
  rw [utilityUpdate_eq_fold]
  have hperc : NoMove (perceptionUpdate env sc.1) := fun k => h k
  exact utilityFold_noMove env (perceptionUpdate env sc.1, sc.2).1.entity_count
    (perceptionUpdate env sc.1, sc.2) hperc j

lemma runFrames_noMove (env : Env) (dt : ℚ) (n : Nat) (sc : GameState × Nat)
    (h : NoMove sc.1) : NoMove (runFrames env dt n sc).1 := by
  induction n generalizing sc with
  | zero => exact h
  | succ n ih => exact ih (frameUpdate env dt sc) (frameUpdate_noMove env dt sc h)

/-- C10: The decision stage never assigns move-to-target: on any state, a
live agent's post-decision action is the selection result, which is one of
idle/eat/sleep/flee/explore/attack; and since initialization sets every
action to idle, no agent in the main pipeline ever carries the
move-to-target action, over any number of frames. -/
theorem c10_no_move_to_target (env : Env) (dt : ℚ) (count n c : Nat)
    (posd needd angd : Nat → ℚ) :
    (∀ (s : GameState) (c' i : Nat), i < s.entity_count → s.is_alive i = true →
      (utilityUpdate env (s, c')).1.current_action i ≠ ActionType.MOVE_TO_TARGET) ∧
    (∀ i, (runFrames env dt n (initState count posd needd angd, c)).1.current_action i ≠
      ActionType.MOVE_TO_TARGET) := by
  constructor
  · intro s c' i hi ha
    rw [utilityUpdate_eq_fold]
    rw [(utilityFold_action_at env s.entity_count (s, c') i hi ha).1]
    exact bestOf_ne_move s i
  · exact runFrames_noMove env dt n (initState count posd needd angd, c)
      (fun i h => absurd h (by simp [initState]))

/-- Witness for C10: the decision pass on a concrete live agent. -/
theorem c10_witness :
    (utilityUpdate envW (exploreState, 0)).1.current_action 0 ≠
      ActionType.MOVE_TO_TARGET :=
  (c10_no_move_to_target envW 0 0 0 0 (fun _ => 0) (fun _ => 0) (fun _ => 0)).1
    exploreState 0 0 (by norm_num [exploreState, baseState]) rfl

lemma selectAction_nonpos (e sl f ex a : ℚ) (he : e ≤ 0) (hsl : sl ≤ 0)
    (hf : f ≤ 0) (hex : ex ≤ 0) (ha : a ≤ 0) :
    selectAction e sl f ex a = (ActionType.IDLE, 0) := by
  simp only [selectAction]
  rw [if_neg (not_lt.mpr he)]
  dsimp only
  rw [if_neg (not_lt.mpr hsl)]
  dsimp only
  rw [if_neg (not_lt.mpr hf)]
  dsimp only
  rw [if_neg (not_lt.mpr hex)]
  dsimp only
  rw [if_neg (not_lt.mpr ha)]

lemma selectAction_tie (f : ℚ) :
    selectAction 1 1 f 0 0 =
      if 1 < f then (ActionType.FLEE, f) else (ActionType.EAT, 1) := by
  simp only [selectAction]
  rw [if_pos (by norm_num : (0 : ℚ) < 1)]
  dsimp only
  rw [if_neg (by norm_num : ¬((1 : ℚ) < 1))]
  dsimp only
  by_cases hf : (1 : ℚ) < f
  · rw [if_pos hf]
    dsimp only
    rw [if_neg (by linarith : ¬(f < (0 : ℚ)))]
    dsimp only
    rw [if_neg (by linarith : ¬(f < (0 : ℚ)))]
  · rw [if_neg hf]
    dsimp only
    rw [if_neg (by norm_num : ¬((1 : ℚ) < 0))]
    dsimp only
    rw [if_neg (by norm_num : ¬((1 : ℚ) < 0))]

/-- C3 (amended): for a live agent with hunger 1 and energy 0 the eat and
sleep scores tie at 1 and the decision is eat whenever the flee score does
not exceed the tie (in particular it is never sleep; when the flee score
exceeds 1, flee wins); and when no score is strictly positive the agent is
left idle with utility 0 — the priority order under the
strictly-greater-than comparison is eat, sleep, flee, explore, attack over
the idle baseline. -/
theorem c3_amended_tie_break :
    (∀ (env : Env) (s : GameState) (c i : Nat),
      i < s.entity_count → s.is_alive i = true →
      s.hunger i = 1 → s.energy i = 0 →
      ((utilityUpdate env (s, c)).1.current_action i = ActionType.EAT ∨
       (utilityUpdate env (s, c)).1.current_action i = ActionType.FLEE) ∧
      (CalculateFleeUtility s i ≤ 1 →
        (utilityUpdate env (s, c)).1.current_action i = ActionType.EAT)) ∧
    (∀ (env : Env) (s : GameState) (c i : Nat),
      i < s.entity_count → s.is_alive i = true →
      CalculateEatUtility s i ≤ 0 → CalculateSleepUtility s i ≤ 0 →
      CalculateFleeUtility s i ≤ 0 → CalculateExploreUtility s i ≤ 0 →
      CalculateAttackUtility s i ≤ 0 →
      (utilityUpdate env (s, c)).1.current_action i = ActionType.IDLE ∧
      (utilityUpdate env (s, c)).1.action_utility i = 0) := by
  constructor
  · intro env s c i hi ha hh he
    have heat : CalculateEatUtility s i = 1 := by
      unfold CalculateEatUtility QuadraticCurve
      rw [hh]
      norm_num
    have hsleep : CalculateSleepUtility s i = 1 := by
      unfold CalculateSleepUtility QuadraticCurve
      rw [he]
      norm_num
    have hexp : CalculateExploreUtility s i = 0 := by
      unfold CalculateExploreUtility
      rw [he]
      ring
    have hatk : CalculateAttackUtility s i = 0 := by
      unfold CalculateAttackUtility
      split
      · rfl
      · rw [he]
        ring
    have hbest : bestOf s i =
        if 1 < CalculateFleeUtility s i then ActionType.FLEE else ActionType.EAT := by
      unfold bestOf
      rw [heat, hsleep, hexp, hatk, selectAction_tie, apply_ite Prod.fst]
    rw [utilityUpdate_eq_fold,
      (utilityFold_action_at env s.entity_count (s, c) i hi ha).1, hbest]
    constructor
    · by_cases hf : 1 < CalculateFleeUtility s i
      · right
        rw [if_pos hf]
      · left
        rw [if_neg hf]
    · intro hfle
      rw [if_neg (not_lt.mpr hfle)]
  · intro env s c i hi ha h1 h2 h3 h4 h5
    have hsel : selectAction (CalculateEatUtility s i) (CalculateSleepUtility s i)
        (CalculateFleeUtility s i) (CalculateExploreUtility s i)
        (CalculateAttackUtility s i) = (ActionType.IDLE, 0) :=
      selectAction_nonpos _ _ _ _ _ h1 h2 h3 h4 h5
    have hb : bestOf s i = ActionType.IDLE := by
      unfold bestOf
      rw [hsel]
    have hu : bestUtilOf s i = 0 := by
      unfold bestUtilOf
      rw [hsel]
    have hat := utilityFold_action_at env s.entity_count (s, c) i hi ha
    rw [utilityUpdate_eq_fold]
    exact ⟨hat.1.trans hb, hat.2.trans hu⟩

/-- Counterexample to C3 as stated: a live agent with hunger 1, energy 0 and
safety 0 (flee score `1.5 > 1`) selects flee, not eat. -/
theorem c3_counterexample :
    (utilityUpdate envW (tieLowSafety, 0)).1.current_action 0 = ActionType.FLEE ∧
    ActionType.FLEE ≠ ActionType.EAT := by
  constructor
  · rw [utilityUpdate_eq_fold]
    norm_num [tieLowSafety, baseState, utilityFold, utilityStep, selectAction,
      CalculateEatUtility, CalculateSleepUtility, CalculateFleeUtility,
      CalculateExploreUtility, CalculateAttackUtility, QuadraticCurve, upd, envW,
      List.range_succ]
    rfl
  · decide

/-- Witness for the amended C3: with safety 1 (flee score 0) the tie goes to
eat. -/
theorem c3_witness :
    (utilityUpdate envW (tieHighSafety, 0)).1.current_action 0 = ActionType.EAT :=
  (c3_amended_tie_break.1 envW tieHighSafety 0 0
    (by norm_num [tieHighSafety, baseState]) rfl rfl rfl).2
    (by norm_num [CalculateFleeUtility, tieHighSafety, baseState, QuadraticCurve])

lemma kinetic_damp_clamp (env : Env) (dt : ℚ) (s : GameState)
    (hsqrt : env.sqrtO 81 = 9) (hcount : s.entity_count = 1)
    (ha : s.is_alive 0 = true)
    (hact : s.current_action 0 = ActionType.IDLE ∨
      s.current_action 0 = ActionType.SLEEP)
    (hvx : s.vel_x 0 = 10) (hvy : s.vel_y 0 = 0) :
    (kineticUpdate env dt s).vel_x 0 = 5 ∧ (kineticUpdate env dt s).vel_y 0 = 0 := by
  have hstep : kineticUpdate env dt s = kineticStep env dt 0 s := by
    rw [kineticUpdate_eq_fold, hcount]
    rfl
  have hv1 : kineticVelUpdate env dt 0 s =
      { s with
        vel_x := upd s.vel_x 0 (s.vel_x 0 * 0.9)
        vel_y := upd s.vel_y 0 (s.vel_y 0 * 0.9) } := by
    simp only [kineticVelUpdate]
    rcases hact with h | h <;> rw [h] <;> simp
  have h9x : (kineticVelUpdate env dt 0 s).vel_x 0 = 9 := by
    rw [hv1]
    show upd s.vel_x 0 (s.vel_x 0 * 0.9) 0 = 9
    rw [upd_self, hvx]
    norm_num
  have h0y : (kineticVelUpdate env dt 0 s).vel_y 0 = 0 := by
    rw [hv1]
    show upd s.vel_y 0 (s.vel_y 0 * 0.9) 0 = 0
    rw [upd_self, hvy]
    norm_num
  have hfx : (kineticStep env dt 0 s).vel_x 0 =
      (kineticClampSpeed env 0 (kineticVelUpdate env dt 0 s)).vel_x 0 := by
    simp only [kineticStep]
    rw [if_pos ha]
  have hfy : (kineticStep env dt 0 s).vel_y 0 =
      (kineticClampSpeed env 0 (kineticVelUpdate env dt 0 s)).vel_y 0 := by
    simp only [kineticStep]
    rw [if_pos ha]
  have hclx : (kineticClampSpeed env 0 (kineticVelUpdate env dt 0 s)).vel_x 0 = 5 := by
    simp only [kineticClampSpeed]
    rw [h9x, h0y]
    rw [if_pos (by norm_num [MAX_SPEED] : MAX_SPEED * MAX_SPEED < (9 : ℚ) * 9 + 0 * 0)]
    dsimp only
    rw [upd_self]
    norm_num [MAX_SPEED, hsqrt]
  have hcly : (kineticClampSpeed env 0 (kineticVelUpdate env dt 0 s)).vel_y 0 = 0 := by
    simp only [kineticClampSpeed]
    rw [h9x, h0y]
    rw [if_pos (by norm_num [MAX_SPEED] : MAX_SPEED * MAX_SPEED < (9 : ℚ) * 9 + 0 * 0)]
    dsimp only
    rw [upd_self]
    norm_num [MAX_SPEED, hsqrt]
  exact ⟨hstep ▸ hfx ▸ hclx, hstep ▸ hfy ▸ hcly⟩

/-- C2 (amended): for a live agent whose current action is idle or sleep and
whose velocity is `(10, 0)`, the damping sub-step of one `KineticSystem`
update multiplies the velocity by 0.9 per call (yielding `(9, 0)`, and
`9 = 10 × 0.9`), for every value of `Δt`; but the update then clamps the
speed to `MAX_SPEED = 5`, so the velocity at the end of the update is
`(5, 0)`, again for every value of `Δt`. -/
theorem c2_amended_damping (env : Env) (dt : ℚ) (s : GameState)
    (hsqrt : env.sqrtO 81 = 9) (hcount : s.entity_count = 1)
    (ha : s.is_alive 0 = true)
    (hact : s.current_action 0 = ActionType.IDLE ∨
      s.current_action 0 = ActionType.SLEEP)
    (hvx : s.vel_x 0 = 10) (hvy : s.vel_y 0 = 0) :
    s.vel_x 0 * 0.9 = 9 ∧ s.vel_y 0 * 0.9 = 0 ∧
    (kineticUpdate env dt s).vel_x 0 = 5 ∧ (kineticUpdate env dt s).vel_y 0 = 0 := by
  have h := kinetic_damp_clamp env dt s hsqrt hcount ha hact hvx hvy
  exact ⟨by rw [hvx]; norm_num, by rw [hvy]; norm_num, h.1, h.2⟩

/-- Counterexample to C2 as stated: at `Δt = 0.016` the full kinetic update
on velocity `(10, 0)` ends with velocity `(5, 0)` — not `(9, 0)` — because
the per-call 0.9 damping is followed by the clamp to `MAX_SPEED = 5`. -/
theorem c2_counterexample :
    (kineticUpdate env2 0.016 dampState).vel_x 0 = 5 ∧
    ¬((kineticUpdate env2 0.016 dampState).vel_x 0 = 9) := by
  have h5 := (kinetic_damp_clamp env2 0.016 dampState (by norm_num [env2])
    (by norm_num [dampState, baseState]) rfl (Or.inl rfl) rfl rfl).1
  refine ⟨h5, ?_⟩
  rw [h5]
  norm_num

/-- Witness for the amended C2 at `Δt = 0.016`. -/
theorem c2_witness :
    (kineticUpdate env2 0.016 dampState).vel_y 0 = 0 :=
  (c2_amended_damping env2 0.016 dampState (by norm_num [env2])
    (by norm_num [dampState, baseState]) rfl (Or.inl rfl) rfl rfl).2.2.2

lemma perception_dead_not_visible (env : Env) (s : GameState) (d : Nat)
    (hd : s.is_alive d = false) (i : Nat) :
    ¬(d ∈ (perceptionUpdate env s).visible_entities i) := by
  intro hmem
  have hproj : (perceptionUpdate env s).visible_entities i =
      if i < s.entity_count ∧ s.is_alive i = true then
        (queryNeighborhood (buildGrid s) (s.pos_x i) (s.pos_y i)).filter
          (fun t => visiblePred env s i t)
      else [] := rfl
  rw [hproj] at hmem
  by_cases hc : i < s.entity_count ∧ s.is_alive i = true
  · rw [if_pos hc] at hmem
    have hpred := (List.mem_filter.mp hmem).2
    unfold visiblePred at hpred
    by_cases hdi : d = i
    · rw [if_pos hdi] at hpred
      exact Bool.false_ne_true hpred
    · rw [if_neg hdi, if_pos hd] at hpred
      exact Bool.false_ne_true hpred
  · rw [if_neg hc] at hmem
    exact absurd hmem (List.not_mem_nil d)

lemma utilityStep_pres_dead (env : Env) (i : Nat) (sc : GameState × Nat) (d : Nat)
    (hd : sc.1.is_alive d = false) :
    (utilityStep env i sc).1.current_action d = sc.1.current_action d := by
  by_cases hid : d = i
  · subst hid
    rw [utilityStep_dead env d sc (by simp [hd])]
  · exact (utilityStep_other env i sc d hid).1

lemma utilityFold_action_dead (env : Env) (n : Nat) (sc : GameState × Nat) (d : Nat)
    (hd : sc.1.is_alive d = false) :
    (utilityFold env n sc).1.current_action d = sc.1.current_action d := by
  refine (foldl_inv (fun sc i => utilityStep env i sc)
    (fun t => t.1.is_alive d = false ∧
      t.1.current_action d = sc.1.current_action d)
    ?_ (List.range n) sc ⟨hd, rfl⟩).2
  intro t i ht
  dsimp only
  obtain ⟨ca, au, te, tx, ty, c', hsh⟩ := utilityStep_shape env i t
  constructor
  · rw [hsh]
    exact ht.1
  · rw [utilityStep_pres_dead env i t d ht.1]
    exact ht.2

lemma needsStep_pres_dead (env : Env) (dt : ℚ) (i : Nat) (sc : GameState × Nat)
    (d : Nat) (hd : sc.1.is_alive d = false) :
    (needsStep env dt i sc).1.hunger d = sc.1.hunger d ∧
    (needsStep env dt i sc).1.energy d = sc.1.energy d ∧
    (needsStep env dt i sc).1.safety d = sc.1.safety d ∧
    (needsStep env dt i sc).1.curiosity d = sc.1.curiosity d := by
  by_cases hid : d = i
  · subst hid
    rw [needsStep_dead env dt d sc (by simp [hd])]
    exact ⟨rfl, rfl, rfl, rfl⟩
  · exact needsStep_other env dt i sc d hid

lemma needsFold_needs_dead (env : Env) (dt : ℚ) (n : Nat) (sc : GameState × Nat)
    (d : Nat) (hd : sc.1.is_alive d = false) :
    (needsFold env dt n sc).1.hunger d = sc.1.hunger d ∧
    (needsFold env dt n sc).1.energy d = sc.1.energy d ∧
    (needsFold env dt n sc).1.safety d = sc.1.safety d ∧
    (needsFold env dt n sc).1.curiosity d = sc.1.curiosity d := by
  refine (foldl_inv (fun sc i => needsStep env dt i sc)
    (fun t => t.1.is_alive d = false ∧
      (t.1.hunger d = sc.1.hunger d ∧ t.1.energy d = sc.1.energy d ∧
       t.1.safety d = sc.1.safety d ∧ t.1.curiosity d = sc.1.curiosity d))
    ?_ (List.range n) sc ⟨hd, rfl, rfl, rfl, rfl⟩).2
  intro t i ht
  dsimp only
  obtain ⟨nh, ne, nsf, ncu, c', hsh⟩ := needsStep_shape env dt i t
  have hstep := needsStep_pres_dead env dt i t d ht.1
  refine ⟨?_, ?_, ?_, ?_, ?_⟩
  · rw [hsh]
    exact ht.1
  · rw [hstep.1]
    exact ht.2.1
  · rw [hstep.2.1]
    exact ht.2.2.1
  · rw [hstep.2.2.1]
    exact ht.2.2.2.1
  · rw [hstep.2.2.2]
    exact ht.2.2.2.2

/-- C7: for any frame, an agent whose alive flag is false never appears in
any other agent's visible set, and the frame leaves that agent's action and
all four needs untouched. -/
theorem c7_dead_agent_excluded (env : Env) (dt : ℚ) (c : Nat) (s : GameState)
    (d : Nat) (hd : s.is_alive d = false) :
    (∀ i, ¬(d ∈ (frameUpdate env dt (s, c)).1.visible_entities i)) ∧
    (frameUpdate env dt (s, c)).1.current_action d = s.current_action d ∧
    (frameUpdate env dt (s, c)).1.hunger d = s.hunger d ∧
    (frameUpdate env dt (s, c)).1.energy d = s.energy d ∧
    (frameUpdate env dt (s, c)).1.safety d = s.safety d ∧
    (frameUpdate env dt (s, c)).1.curiosity d = s.curiosity d := by
  have hal1 : (perceptionUpdate env s).is_alive d = false := hd
  have hal2 : (utilityUpdate env (perceptionUpdate env s, c)).1.is_alive d = false := by
    rw [utilityUpdate_eq_fold]
    rw [congrFun (utilityFold_pres env _ _).2.2.2.2.2.2.2.2.2.2.2.2.2.1 d]
    exact hal1
  have hal3 : (kineticUpdate env dt
      (utilityUpdate env (perceptionUpdate env s, c)).1).is_alive d = false := by
    rw [kineticUpdate_eq_fold]
    rw [congrFun (kineticFold_pres env dt _ _).2.2.2.2.2.2.2.2.2.2.2.2.2.1 d]
    exact hal2
  have hframe : frameUpdate env dt (s, c) =
      needsUpdate env dt
        (kineticUpdate env dt (utilityUpdate env (perceptionUpdate env s, c)).1,
          (utilityUpdate env (perceptionUpdate env s, c)).2) := rfl
  have hneeds := needsFold_needs_dead env dt
    (kineticUpdate env dt (utilityUpdate env (perceptionUpdate env s, c)).1,
      (utilityUpdate env (perceptionUpdate env s, c)).2).1.entity_count
    (kineticUpdate env dt (utilityUpdate env (perceptionUpdate env s, c)).1,
      (utilityUpdate env (perceptionUpdate env s, c)).2) d hal3
  constructor
  · intro i
    rw [hframe, needsUpdate_eq_fold]
    rw [congrFun (needsFold_pres env dt _ _).2.2.2.2.2.2.2.2.2.2.2.2.2.2.2 i]
    rw [kineticUpdate_eq_fold]
    rw [congrFun (kineticFold_pres env dt _ _).2.2.2.2.2.2.2.2.2.2.2.2.2.2 i]
    rw [utilityUpdate_eq_fold]
    rw [congrFun (utilityFold_pres env _ _).2.2.2.2.2.2.2.2.2.2.2.2.2.2 i]
    exact perception_dead_not_visible env s d hd i
  · refine ⟨?_, ?_, ?_, ?_, ?_⟩
    · rw [hframe, needsUpdate_eq_fold]
      rw [congrFun (needsFold_pres env dt _ _).2.2.2.2.2.2.2.2.2.1 d]
      rw [kineticUpdate_eq_fold]
      rw [congrFun (kineticFold_pres env dt _ _).2.2.2.2.2.2.2.2.1 d]
      rw [utilityUpdate_eq_fold]
      rw [utilityFold_action_dead env _ (perceptionUpdate env s, c) d hal1]
      rfl
    · rw [hframe, needsUpdate_eq_fold, hneeds.1]
      rw [kineticUpdate_eq_fold]
      rw [congrFun (kineticFold_pres env dt _ _).2.2.2.2.1 d]
      rw [utilityUpdate_eq_fold]
      rw [congrFun (utilityFold_pres env _ _).2.2.2.2.2.2.2.2.2.1 d]
      rfl
    · rw [hframe, needsUpdate_eq_fold, hneeds.2.1]
      rw [kineticUpdate_eq_fold]
      rw [congrFun (kineticFold_pres env dt _ _).2.2.2.2.2.1 d]
      rw [utilityUpdate_eq_fold]
      rw [congrFun (utilityFold_pres env _ _).2.2.2.2.2.2.2.2.2.2.1 d]
      rfl
    · rw [hframe, needsUpdate_eq_fold, hneeds.2.2.1]
      rw [kineticUpdate_eq_fold]
      rw [congrFun (kineticFold_pres env dt _ _).2.2.2.2.2.2.1 d]
      rw [utilityUpdate_eq_fold]
      rw [congrFun (utilityFold_pres env _ _).2.2.2.2.2.2.2.2.2.2.2.1 d]
      rfl
    · rw [hframe, needsUpdate_eq_fold, hneeds.2.2.2]
      rw [kineticUpdate_eq_fold]
      rw [congrFun (kineticFold_pres env dt _ _).2.2.2.2.2.2.2.1 d]
      rw [utilityUpdate_eq_fold]
      rw [congrFun (utilityFold_pres env _ _).2.2.2.2.2.2.2.2.2.2.2.2.1 d]
      rfl

/-- Witness for C7: a concrete frame with agent 1 dead. -/
theorem c7_witness :
    (∀ i, ¬(1 ∈ (frameUpdate envW 0.016 (deadState, 0)).1.visible_entities i)) ∧
    (frameUpdate envW 0.016 (deadState, 0)).1.current_action 1 =
      deadState.current_action 1 ∧
    (frameUpdate envW 0.016 (deadState, 0)).1.hunger 1 = deadState.hunger 1 ∧
    (frameUpdate envW 0.016 (deadState, 0)).1.energy 1 = deadState.energy 1 ∧
    (frameUpdate envW 0.016 (deadState, 0)).1.safety 1 = deadState.safety 1 ∧
    (frameUpdate envW 0.016 (deadState, 0)).1.curiosity 1 = deadState.curiosity 1 :=
  c7_dead_agent_excluded envW 0.016 0 deadState 1 rfl

/-- C6: if during the decision stage agent `A` selects attack and the first
element of `A`'s visible set is agent `B`, currently at `(50, 50)`, then
`A`'s target entity is `B` and its target position `(50, 50)`, and the
target position still equals `(50, 50)` at the end of the frame, after the
kinematics and drive stages have run for all agents (the decision stage
completes before kinematics begins and the later stages do not write
targets). -/
theorem c6_attack_target_snapshot (env : Env) (dt : ℚ) (c : Nat) (s : GameState)
    (A B : Nat) (l : List Nat)
    (hA : A < s.entity_count) (haliveA : s.is_alive A = true)
    (hvis : (perceptionUpdate env s).visible_entities A = B :: l)
    (hBx : s.pos_x B = 50) (hBy : s.pos_y B = 50)
    (hact : (utilityUpdate env (perceptionUpdate env s, c)).1.current_action A =
      ActionType.ATTACK) :
    (frameUpdate env dt (s, c)).1.target_entity A = B ∧
    (frameUpdate env dt (s, c)).1.target_x A = 50 ∧
    (frameUpdate env dt (s, c)).1.target_y A = 50 := by
  have hA' : A < (perceptionUpdate env s).entity_count := hA
  have halive' : (perceptionUpdate env s).is_alive A = true := haliveA
  have hb : bestOf (perceptionUpdate env s) A = ActionType.ATTACK := by
    rw [utilityUpdate_eq_fold] at hact
    rw [(utilityFold_action_at env (perceptionUpdate env s, c).1.entity_count
      (perceptionUpdate env s, c) A hA' halive').1] at hact
    exact hact
  have hv : ¬((perceptionUpdate env s).visible_entities A = []) := by
    rw [hvis]
    exact List.cons_ne_nil B l
  have hattack := utilityFold_attack_at env
    (perceptionUpdate env s, c).1.entity_count (perceptionUpdate env s, c)
    A hA' halive' hb hv
  have hhead : ((perceptionUpdate env s, c).1.visible_entities A).headI = B := by
    show ((perceptionUpdate env s).visible_entities A).headI = B
    rw [hvis]
    rfl
  have hte : (utilityUpdate env (perceptionUpdate env s, c)).1.target_entity A = B := by
    rw [utilityUpdate_eq_fold, hattack.1, hhead]
  have htx : (utilityUpdate env (perceptionUpdate env s, c)).1.target_x A = 50 := by
    rw [utilityUpdate_eq_fold, hattack.2.1, hhead]
    exact hBx
  have hty : (utilityUpdate env (perceptionUpdate env s, c)).1.target_y A = 50 := by
    rw [utilityUpdate_eq_fold, hattack.2.2, hhead]
    exact hBy
  have hframe : frameUpdate env dt (s, c) =
      needsUpdate env dt
        (kineticUpdate env dt (utilityUpdate env (perceptionUpdate env s, c)).1,
          (utilityUpdate env (perceptionUpdate env s, c)).2) := rfl
  refine ⟨?_, ?_, ?_⟩
  · rw [hframe, needsUpdate_eq_fold]
    rw [congrFun (needsFold_pres env dt _ _).2.2.2.2.2.2.2.2.2.2.2.1 A]
    rw [kineticUpdate_eq_fold]
    rw [congrFun (kineticFold_pres env dt _ _).2.2.2.2.2.2.2.2.2.2.1 A]
    exact hte
  · rw [hframe, needsUpdate_eq_fold]
    rw [congrFun (needsFold_pres env dt _ _).2.2.2.2.2.2.2.2.2.2.2.2.1 A]
    rw [kineticUpdate_eq_fold]
    rw [congrFun (kineticFold_pres env dt _ _).2.2.2.2.2.2.2.2.2.2.2.1 A]
    exact htx
  · rw [hframe, needsUpdate_eq_fold]
    rw [congrFun (needsFold_pres env dt _ _).2.2.2.2.2.2.2.2.2.2.2.2.2.1 A]
    rw [kineticUpdate_eq_fold]
    rw [congrFun (kineticFold_pres env dt _ _).2.2.2.2.2.2.2.2.2.2.2.2.1 A]
    exact hty

/-- Witness for C6: agent 0 attacks agent 1 at `(50, 50)` and the target
snapshot survives the whole frame. -/
theorem c6_witness :
    (frameUpdate envW 0.016 (attackState, 0)).1.target_entity 0 = 1 ∧
    (frameUpdate envW 0.016 (attackState, 0)).1.target_x 0 = 50 ∧
    (frameUpdate envW 0.016 (attackState, 0)).1.target_y 0 = 50 := by
  have hvis : (perceptionUpdate envW attackState).visible_entities 0 = [1] := by
    have hgrid : buildGrid attackState =
        insertGrid (insertGrid (fun _ _ => []) 0 48 50) 1 50 50 := by
      simp only [buildGrid, attackState, baseState, List.range_succ]
      norm_num
    show (if 0 < attackState.entity_count ∧ attackState.is_alive 0 = true then
        (queryNeighborhood (buildGrid attackState) (attackState.pos_x 0)
          (attackState.pos_y 0)).filter (fun t => visiblePred envW attackState 0 t)
      else []) = [1]
    rw [hgrid]
    norm_num [attackState, baseState, queryNeighborhood, neighborCells, insertGrid,
      truncQ, visiblePred, normLoop, piQ, envW, List.filter]
  have hact : (utilityUpdate envW (perceptionUpdate envW attackState, 0)).1.current_action 0 =
      ActionType.ATTACK := by
    rw [utilityUpdate_eq_fold]
    rw [(utilityFold_action_at envW (perceptionUpdate envW attackState, 0).1.entity_count
      (perceptionUpdate envW attackState, 0) 0 (by exact Nat.succ_pos 1) rfl).1]
    have hh : (perceptionUpdate envW attackState).hunger 0 = 1/2 := rfl
    have he : (perceptionUpdate envW attackState).energy 0 = 1/2 := rfl
    have hsf : (perceptionUpdate envW attackState).safety 0 = 1 := rfl
    have hcu : (perceptionUpdate envW attackState).curiosity 0 = 0 := rfl
    unfold bestOf CalculateEatUtility CalculateSleepUtility CalculateFleeUtility
      CalculateExploreUtility CalculateAttackUtility QuadraticCurve
    rw [hvis, hh, he, hsf, hcu]
    norm_num [selectAction]
  exact c6_attack_target_snapshot envW 0.016 0 attackState 0 1 []
    (by exact Nat.succ_pos 1) rfl hvis rfl rfl hact

lemma offset_bounds (m : Nat) :
    -10 ≤ ((m % 20 : Nat) : ℚ) - 10 ∧ ((m % 20 : Nat) : ℚ) - 10 ≤ 10 := by
  constructor
  · have h0 : (0 : ℚ) ≤ ((m % 20 : Nat) : ℚ) := Nat.cast_nonneg _
    linarith
  · have h : m % 20 < 20 := Nat.mod_lt _ (by norm_num)
    have h' : ((m % 20 : Nat) : ℚ) < 20 := by exact_mod_cast h
    linarith

/-- C8: whenever the decision stage selects explore for a live agent, it
sets the target position to the agent's current position offset by two
independently drawn `rand() % 20 - 10` values (horizontal first, vertical
second, consecutive draws), each of which lies in `[-10, 10]`. -/
theorem c8_explore_target_offsets (env : Env) (s : GameState) (c i : Nat)
    (hi : i < s.entity_count) (ha : s.is_alive i = true)
    (hact : (utilityUpdate env (s, c)).1.current_action i = ActionType.EXPLORE) :
    ∃ ox oy : ℚ,
      (utilityUpdate env (s, c)).1.target_x i = s.pos_x i + ox ∧
      (utilityUpdate env (s, c)).1.target_y i = s.pos_y i + oy ∧
      -10 ≤ ox ∧ ox ≤ 10 ∧ -10 ≤ oy ∧ oy ≤ 10 ∧
      ∃ k : Nat, ox = ((env.rng k % 20 : Nat) : ℚ) - 10 ∧
        oy = ((env.rng (k + 1) % 20 : Nat) : ℚ) - 10 := by
  have hb : bestOf s i = ActionType.EXPLORE := by
    rw [utilityUpdate_eq_fold] at hact
    rw [(utilityFold_action_at env s.entity_count (s, c) i hi ha).1] at hact
    exact hact
  obtain ⟨k, hx, hy⟩ := utilityFold_explore_at env s.entity_count (s, c) i hi ha hb
  refine ⟨((env.rng k % 20 : Nat) : ℚ) - 10, ((env.rng (k + 1) % 20 : Nat) : ℚ) - 10,
    ?_, ?_, (offset_bounds (env.rng k)).1, (offset_bounds (env.rng k)).2,
    (offset_bounds (env.rng (k + 1))).1, (offset_bounds (env.rng (k + 1))).2,
    k, rfl, rfl⟩
  · rw [utilityUpdate_eq_fold]
    exact hx
  · rw [utilityUpdate_eq_fold]
    exact hy

/-- Witness for C8: a concrete agent whose decision is explore. -/
theorem c8_witness :
    ∃ ox oy : ℚ,
      (utilityUpdate envW (exploreState, 0)).1.target_x 0 = exploreState.pos_x 0 + ox ∧
      (utilityUpdate envW (exploreState, 0)).1.target_y 0 = exploreState.pos_y 0 + oy ∧
      -10 ≤ ox ∧ ox ≤ 10 ∧ -10 ≤ oy ∧ oy ≤ 10 ∧
      ∃ k : Nat, ox = ((envW.rng k % 20 : Nat) : ℚ) - 10 ∧
        oy = ((envW.rng (k + 1) % 20 : Nat) : ℚ) - 10 :=
  c8_explore_target_offsets envW exploreState 0 0 (by exact Nat.succ_pos 0) rfl
    (by
      rw [utilityUpdate_eq_fold]
      rw [(utilityFold_action_at envW exploreState.entity_count (exploreState, 0) 0
        (by exact Nat.succ_pos 0) rfl).1]
      unfold bestOf CalculateEatUtility CalculateSleepUtility CalculateFleeUtility
        CalculateExploreUtility CalculateAttackUtility QuadraticCurve
      norm_num [exploreState, baseState, selectAction])

lemma tmod_window (a : ℤ) (hlo : -1 ≤ a) (hhi : a ≤ 101) :
    ((0 ≤ a.tmod 100 ∧ a.tmod 100 < 100) ↔ 0 ≤ a) ∧
    (0 ≤ a → a.tmod 100 = a % 100) := by
  have hmod : 0 ≤ a → a.tmod 100 = a % 100 := fun h =>
    Int.tmod_eq_emod h (by norm_num)
  refine ⟨⟨?_, ?_⟩, hmod⟩
  · intro h
    by_contra hneg
    have ha : a = -1 := by omega
    subst ha
    have hval : Int.tmod (-1) 100 = -1 := by decide
    rw [hval] at h
    omega
  · intro h
    rw [hmod h]
    exact ⟨Int.emod_nonneg a (by norm_num), Int.emod_lt_of_pos a (by norm_num)⟩

lemma truncQ_bounds (x : ℚ) (hx0 : 0 ≤ x) (hx1 : x ≤ 1000) :
    0 ≤ truncQ (x / 10) ∧ truncQ (x / 10) ≤ 100 := by
  have hq0 : (0 : ℚ) ≤ x / 10 := by linarith
  unfold truncQ
  rw [if_pos hq0]
  constructor
  · exact Int.floor_nonneg.mpr hq0
  · have h : (⌊x / 10⌋ : ℚ) ≤ 100 := le_trans (Int.floor_le _) (by linarith)
    exact_mod_cast h

/-- C4 (amended): the perception query around `(x, y)` visits, out of the
3×3 block of cell offsets `dx, dy ∈ {-1, 0, 1}` around the containing cell,
exactly those cells whose truncated-modulo coordinates both land in
`[0, 100)`: a coordinate `g + d ≥ 0` is reduced modulo 100 (so 100 wraps to
0), while a coordinate of `-1` stays `-1` under C++ truncated `%` and is
skipped by the bounds check, not wrapped to 99; the candidates collected are
exactly the members of the visited cells' buckets. -/
theorem c4_amended_neighborhood (x y : ℚ)
    (hx0 : 0 ≤ x) (hx1 : x ≤ 1000) (hy0 : 0 ≤ y) (hy1 : y ≤ 1000) :
    (∀ cx cy : ℤ,
      ((cx, cy) ∈ neighborCells x y ↔
        ∃ dx ∈ ([-1, 0, 1] : List ℤ), ∃ dy ∈ ([-1, 0, 1] : List ℤ),
          0 ≤ truncQ (x / 10) + dx ∧ 0 ≤ truncQ (y / 10) + dy ∧
          cx = (truncQ (x / 10) + dx) % 100 ∧ cy = (truncQ (y / 10) + dy) % 100)) ∧
    (∀ (g : Int → Int → List Nat) (t : Nat),
      (t ∈ queryNeighborhood g x y ↔
        ∃ c ∈ neighborCells x y, t ∈ g c.1 c.2)) := by
  obtain ⟨hgx0, hgx1⟩ := truncQ_bounds x hx0 hx1
  obtain ⟨hgy0, hgy1⟩ := truncQ_bounds y hy0 hy1
  constructor
  · intro cx cy
    unfold neighborCells
    simp only [List.mem_flatMap, List.mem_filterMap, Option.ite_none_right_eq_some,
      Prod.mk.injEq]
    constructor
    · rintro ⟨dx, hdx, dy, hdy, ⟨⟨h1, h2, h3, h4⟩, rfl, rfl⟩⟩
      have hdxr : -1 ≤ dx ∧ dx ≤ 1 := by
        simp only [List.mem_cons, List.not_mem_nil, or_false] at hdx
        rcases hdx with rfl | rfl | rfl <;> norm_num
      have hdyr : -1 ≤ dy ∧ dy ≤ 1 := by
        simp only [List.mem_cons, List.not_mem_nil, or_false] at hdy
        rcases hdy with rfl | rfl | rfl <;> norm_num
      have hwx := tmod_window (truncQ (x / 10) + dx) (by omega) (by omega)
      have hwy := tmod_window (truncQ (y / 10) + dy) (by omega) (by omega)
      have h0x : 0 ≤ truncQ (x / 10) + dx := hwx.1.mp ⟨h1, h2⟩
      have h0y : 0 ≤ truncQ (y / 10) + dy := hwy.1.mp ⟨h3, h4⟩
      refine ⟨dx, hdx, dy, hdy, h0x, h0y, ?_, ?_⟩
      · exact hwx.2 h0x
      · exact hwy.2 h0y
    · rintro ⟨dx, hdx, dy, hdy, h0x, h0y, rfl, rfl⟩
      have hdxr : -1 ≤ dx ∧ dx ≤ 1 := by
        simp only [List.mem_cons, List.not_mem_nil, or_false] at hdx
        rcases hdx with rfl | rfl | rfl <;> norm_num
      have hdyr : -1 ≤ dy ∧ dy ≤ 1 := by
        simp only [List.mem_cons, List.not_mem_nil, or_false] at hdy
        rcases hdy with rfl | rfl | rfl <;> norm_num
      have hwx := tmod_window (truncQ (x / 10) + dx) (by omega) (by omega)
      have hwy := tmod_window (truncQ (y / 10) + dy) (by omega) (by omega)
      obtain ⟨hb1, hb2⟩ := hwx.1.mpr h0x
      obtain ⟨hb3, hb4⟩ := hwy.1.mpr h0y
      refine ⟨dx, hdx, dy, hdy, ⟨hb1, hb2, hb3, hb4⟩, ?_⟩
      rw [hwx.2 h0x, hwy.2 h0y]
  · intro g t
    unfold queryNeighborhood
    simp only [List.mem_flatMap]

/-- Counterexample to C4 as stated: with agent 7 stored in cell `(99, 0)`
(position `(995, 5)`), an observer at `(5, 5)` (cell `(0, 0)`) does not
collect agent 7: cell coordinate `0 - 1 = -1` is not treated as cell 99 —
C++ truncated `%` leaves it at `-1` and the bounds check skips it. -/
theorem c4_counterexample :
    7 ∈ gridEdge 99 0 ∧ ¬(7 ∈ queryNeighborhood gridEdge 5 5) := by
  constructor
  · have h995 : truncQ ((995 : ℚ) / 10) = 99 := by norm_num [truncQ]
    have h05 : truncQ ((5 : ℚ) / 10) = 0 := by norm_num [truncQ]
    simp only [gridEdge, insertGrid, h995, h05]
    decide
  · have h5 : truncQ ((5 : ℚ) / 10) = 0 := by norm_num [truncQ]
    have h995 : truncQ ((995 : ℚ) / 10) = 99 := by norm_num [truncQ]
    simp only [queryNeighborhood, neighborCells, gridEdge, insertGrid, h5, h995]
    decide

/-- Witness for the amended C4: the observer at `(995, 5)` (cell 99) visits
cell 0 — offset `+1` wraps `99 + 1 = 100` to `0`. -/
theorem c4_witness : ((0 : ℤ), (0 : ℤ)) ∈ neighborCells 995 5 :=
  ((c4_amended_neighborhood 995 5 (by norm_num) (by norm_num) (by norm_num)
      (by norm_num)).1 0 0).mpr
    ⟨1, by decide, 0, by decide,
      by norm_num [truncQ], by norm_num [truncQ],
      by norm_num [truncQ], by norm_num [truncQ]⟩

/-- C5 (amended): with cell size 10 and 100×100 cells, the grid adjacency
between a live agent at `x = 999` and one at `x = 1` (equal `y`) is
one-directional: the agent at `x = 1` (cell 0) IS collected by the query
around `(999, 5)` (cell 99, since `(99 + 1) % 100 = 0` wraps), while the
agent at `x = 999` (cell 99) is NOT collected by the query around `(1, 5)`
(cell 0, since `0 - 1 = -1` is skipped, not wrapped); neither agent ends up
in the other's visible set, because the squared-distance filter (998² over
any view range here) rejects the wrapped candidate. -/
theorem c5_amended_wrap_boundary :
    1 ∈ queryNeighborhood (buildGrid wrapState) 999 5 ∧
    ¬(0 ∈ queryNeighborhood (buildGrid wrapState) 1 5) ∧
    (perceptionUpdate envW wrapState).visible_entities 0 = [] ∧
    (perceptionUpdate envW wrapState).visible_entities 1 = [] := by
  have h999 : truncQ ((999 : ℚ) / 10) = 99 := by norm_num [truncQ]
  have h1 : truncQ ((1 : ℚ) / 10) = 0 := by norm_num [truncQ]
  have h05 : truncQ ((5 : ℚ) / 10) = 0 := by norm_num [truncQ]
  have hgrid : buildGrid wrapState =
      insertGrid (insertGrid (fun _ _ => []) 0 999 5) 1 1 5 := by
    simp only [buildGrid, wrapState, baseState, List.range_succ]
    norm_num
  refine ⟨?_, ?_, ?_, ?_⟩
  · rw [hgrid]
    simp only [queryNeighborhood, neighborCells, insertGrid, h999, h1, h05]
    decide
  · rw [hgrid]
    simp only [queryNeighborhood, neighborCells, insertGrid, h999, h1, h05]
    decide
  · show (if 0 < wrapState.entity_count ∧ wrapState.is_alive 0 = true then
        (queryNeighborhood (buildGrid wrapState) (wrapState.pos_x 0)
          (wrapState.pos_y 0)).filter (fun t => visiblePred envW wrapState 0 t)
      else []) = []
    rw [hgrid]
    norm_num [wrapState, baseState, queryNeighborhood, neighborCells, insertGrid,
      truncQ, visiblePred, normLoop, piQ, envW, List.filter]
  · show (if 1 < wrapState.entity_count ∧ wrapState.is_alive 1 = true then
        (queryNeighborhood (buildGrid wrapState) (wrapState.pos_x 1)
          (wrapState.pos_y 1)).filter (fun t => visiblePred envW wrapState 1 t)
      else []) = []
    rw [hgrid]
    norm_num [wrapState, baseState, queryNeighborhood, neighborCells, insertGrid,
      truncQ, visiblePred, normLoop, piQ, envW, List.filter]

/-- Counterexample to C5 as stated: the agent at `x = 1` DOES fall within
the wrapped 3×3 neighbor block queried around the agent at `x = 999`
(column `(99 + 1) % 100 = 0`), so "neither agent's cell falls within the
wrapped block of the other" is false. -/
theorem c5_counterexample :
    1 ∈ queryNeighborhood (buildGrid wrapState) 999 5 := by
  have h999 : truncQ ((999 : ℚ) / 10) = 99 := by norm_num [truncQ]
  have h1 : truncQ ((1 : ℚ) / 10) = 0 := by norm_num [truncQ]
  have h05 : truncQ ((5 : ℚ) / 10) = 0 := by norm_num [truncQ]
  have hgrid : buildGrid wrapState =
      insertGrid (insertGrid (fun _ _ => []) 0 999 5) 1 1 5 := by
    simp only [buildGrid, wrapState, baseState, List.range_succ]
    norm_num
  rw [hgrid]
  simp only [queryNeighborhood, neighborCells, insertGrid, h999, h1, h05]
  decide

lemma driverRunFrom_spec (step : ValSnapshot → ValSnapshot) :
    ∀ (n frame k : Nat) (s : ValSnapshot),
      driverRunFrom step frame n s = some k →
      frame ≤ k ∧ ValidateState (stepIter step (k - frame + 1) s) = false := by
  intro n
  induction n with
  | zero =>
    intro frame k s h
    exact absurd h (by simp [driverRunFrom])
  | succ n ih =>
    intro frame k s h
    simp only [driverRunFrom] at h
    by_cases hv : ValidateState (step s) = false
    · rw [if_pos hv] at h
      injection h with h
      subst h
      have hone : frame - frame + 1 = 1 := by omega
      rw [hone]
      exact ⟨le_refl frame, hv⟩
    · rw [if_neg hv] at h
      obtain ⟨h1, h2⟩ := ih (frame + 1) k (step s) h
      refine ⟨by omega, ?_⟩
      have hsplit : k - frame + 1 = (k - (frame + 1) + 1) + 1 := by omega
      rw [hsplit]
      exact h2

/-- C9 (amended): the validator fails exactly when one of the transforms,
perception, needs or actions array lengths differs from the entity count,
or some agent has a NaN/Inf `position_x`, or a `hunger` that is NaN or
outside `[0, 1]` (the `health` group length, `position_y`, and the energy,
safety and curiosity needs are not checked); and a validator failure is
fatal: the driver loop stops and surfaces the failing frame, whose
post-frame state fails validation. -/
theorem c9_amended_validator :
    (∀ s : ValSnapshot, ValidateState s = true ↔
      (s.transforms_size = s.entity_count ∧ s.perception_size = s.entity_count ∧
       s.needs_size = s.entity_count ∧ s.actions_size = s.entity_count ∧
       ∀ i, i < s.entity_count →
         (isnanF (s.position_x i) = false ∧ isinfF (s.position_x i) = false ∧
          isnanF (s.hunger i) = false ∧ ltF (s.hunger i) (.fin 0) = false ∧
          ltF (.fin 1) (s.hunger i) = false))) ∧
    (∀ (step : ValSnapshot → ValSnapshot) (n k : Nat) (s : ValSnapshot),
      driverRun step n s = some k →
      ValidateState (stepIter step (k + 1) s) = false) := by
  constructor
  · intro s
    unfold ValidateState validEntity
    simp only [Bool.and_eq_true, beq_iff_eq, List.all_eq_true, List.mem_range,
      Bool.not_eq_true', Bool.or_eq_false_iff, and_assoc]
  · intro step n k s h
    have hspec := driverRunFrom_spec step n 0 k s h
    have : k - 0 + 1 = k + 1 := by omega
    rw [this] at hspec
    exact hspec.2

/-- Counterexample to C9 as stated: a snapshot whose `health` group length
differs from the entity count, whose `position_y` is NaN and whose `energy`
is 2 still passes validation — the validator checks none of those. -/
theorem c9_counterexample :
    ValidateState snapPass = true ∧
    ¬(snapPass.health_size = snapPass.entity_count) ∧
    isnanF (snapPass.position_y 0) = true ∧
    ltF (FloatVal.fin 1) (snapPass.energy 0) = true := by
  refine ⟨?_, ?_, rfl, ?_⟩
  · norm_num [ValidateState, snapPass, validEntity, isnanF, isinfF, ltF,
      List.range_succ]
  · show ¬((0 : Nat) = 1)
    norm_num
  · show ltF (FloatVal.fin 1) (FloatVal.fin 2) = true
    simp only [ltF, decide_eq_true_eq]
    norm_num

/-- Witness for the amended C9: the driver halts at frame 0 on a snapshot
with `hunger = 2`, and that frame's state indeed fails validation. -/
theorem c9_witness :
    ValidateState (stepIter (fun t => t) (0 + 1) snapFail) = false := by
  apply c9_amended_validator.2 (fun t => t) 1 0 snapFail
  have hval : ValidateState snapFail = false := by
    norm_num [ValidateState, snapFail, snapPass, validEntity, isnanF, isinfF, ltF,
      List.range_succ]
  simp only [driverRun, driverRunFrom]
  rw [if_pos hval]
